import Mathlib

/-
  Verification of the hamcam-reolink capture core against its specification.

  The development shallowly embeds the Python modules
    phase3_hamster_tracking/utils/lighting_detector.py
    phase3_hamster_tracking/data_collection/data_quality.py
    phase3_hamster_tracking/data_collection/motion_detector.py
    phase3_hamster_tracking/data_collection/auto_capture_system.py
  into Lean.  Pure numeric code is translated to exact arithmetic over the
  rationals (float arithmetic is idealized as exact); the few places where the
  source takes a real square root (Pearson correlation, Euclidean distance,
  pi-based circularity) use the real numbers.  Values produced by OpenCV
  primitives (Laplacian variance, Sobel magnitude, contour area, and so on)
  are foreign measurements: they enter the embedded functions as explicit
  arguments, and the surrounding arithmetic of the repository is embedded
  faithfully.  Stateful methods become explicit state-passing functions.
-/

/-- Lighting mode strings used throughout lighting_detector.py:
the detector returns the Python strings color, ir or unknown. -/
inductive Mode where
  | color
  | ir
  | unknown
deriving DecidableEq, Repr

/-- Embedding of collections.deque with a maxlen bound: appending to a full
deque evicts the oldest element (deque(maxlen=...).append in Python). -/
def dequeAppend {α : Type} (maxlen : ℕ) (l : List α) (x : α) : List α :=
  let l2 := l ++ [x]
  if maxlen < l2.length then l2.drop (l2.length - maxlen) else l2

namespace LightingDetector

/-- Arithmetic mean of a list of rationals, as computed by np.mean
(sum divided by length; np.mean of an empty list is NaN, here 0/0 = 0). -/
def listMean (l : List ℚ) : ℚ := l.sum / l.length

/-- State of the history kept by LightingModeDetector: mode_history and
confidence_history, two deques with maxlen = history_size (default 5). -/
structure HistoryState where
  modeHistory : List Mode
  confidenceHistory : List ℚ
deriving Repr

/-- Embedding of LightingModeDetector._stabilize_with_history
(lighting_detector.py lines 352-383).  The current (mode, confidence) pair is
appended to both deques; with fewer than 3 stored samples the current values
are returned unchanged; otherwise the mode is ir exactly when the ir count in
the stored history strictly exceeds the color count (else color), and the
confidence is the mean of the stored confidence history. -/
def stabilizeWithHistory (s : HistoryState) (mode : Mode) (confidence : ℚ) :
    (Mode × ℚ) × HistoryState :=
  let h := dequeAppend 5 s.modeHistory mode
  let c := dequeAppend 5 s.confidenceHistory confidence
  if h.length < 3 then ((mode, confidence), ⟨h, c⟩)
  else
    let irCount := h.count Mode.ir
    let colorCount := h.count Mode.color
    let stableMode := if colorCount < irCount then Mode.ir else Mode.color
    ((stableMode, listMean c), ⟨h, c⟩)

end LightingDetector

namespace DataQuality

/-- Sub-metric weights of DataQualityAssessor.evaluate_image_quality
(data_quality.py lines 162-174), in the order blur, brightness, contrast,
noise, saturation, hamster_visibility, hamster_size, pose_clarity,
background, lighting, shadow. -/
def weights : List ℚ :=
  [2/10, 1/10, 1/10, 1/10, 5/100, 25/100, 1/10, 15/100, 3/100, 5/100, 2/100]

/-- Sum of the eleven sub-metric weights. -/
def weightsSum : ℚ := weights.sum

noncomputable section

/-- Embedding of DataQualityAssessor._evaluate_blur (data_quality.py lines
239-262).  The Laplacian variance and the mean Sobel gradient magnitude are
OpenCV measurements and enter as arguments; both are normalized with min
against 1 and blended 0.7 / 0.3.  blur_threshold defaults to 100. -/
def evaluateBlur (laplacianVar sobelMagnitude : ℝ) : ℝ :=
  min (laplacianVar / 100) 1 * (7/10) + min (sobelMagnitude / 50) 1 * (3/10)

/-- Embedding of DataQualityAssessor._evaluate_brightness (lines 264-285).
The optimal brightness is np.mean([50, 200]) = 125 and the deviation is
scaled by 127.5 = 255/2. -/
def evaluateBrightness (meanBrightness : ℝ) : ℝ :=
  max 0 (1 - |meanBrightness - 125| / (255/2))

/-- Embedding of DataQualityAssessor._evaluate_contrast (lines 287-309):
standard-deviation and RMS contrast measurements scored against the
threshold 0.3 * 255 and blended 0.6 / 0.4. -/
def evaluateContrast (stdContrast rmsContrast : ℝ) : ℝ :=
  min (stdContrast / (3/10 * 255)) 1 * (6/10) + min (rmsContrast / (3/10 * 255)) 1 * (4/10)

/-- Embedding of DataQualityAssessor._evaluate_noise (lines 311-332): the
variance of the high-frequency residual, normalized by the threshold 100 and
clipped to [0, 1].  The caller subtracts this from 1. -/
def evaluateNoise (noiseVariance : ℝ) : ℝ :=
  max 0 (min (noiseVariance / 100) 1)

/-- Embedding of DataQualityAssessor._evaluate_saturation (lines 334-365).
isColor is false for a grayscale input (len(image.shape) != 3), in which
case 0.5 is returned.  The optimal saturation band is (0.3, 0.8) with center
np.mean of the band = 0.55, and the final score is clamped to [0, 1]. -/
def evaluateSaturation (isColor : Bool) (meanSaturation : ℝ) : ℝ :=
  if isColor = false then 1/2
  else
    let lo : ℝ := 3/10
    let hi : ℝ := 8/10
    let score :=
      if lo ≤ meanSaturation ∧ meanSaturation ≤ hi then
        1 - |meanSaturation - (lo + hi)/2| / (hi - (lo + hi)/2)
      else if meanSaturation < lo then meanSaturation / lo
      else 1 - (meanSaturation - hi) / (1 - hi)
    max 0 (min 1 score)

/-- Result triple of DataQualityAssessor._evaluate_hamster_visibility. -/
structure HamsterMetrics where
  visibility : ℝ
  size : ℝ
  poseClarity : ℝ

/-- Embedding of DataQualityAssessor._evaluate_hamster_visibility (lines
367-446).  contourFound is false when the hue-range mask yields no contour
(score triple 0.1 / 0.0 / 0.0); otherwise area is the largest contour's
area, frameArea the image area and perimeter the contour's arc length.
Size is scored against the ratio range [0.01, 0.15] with optimal ratio
np.mean of the range = 0.08, visibility is min(1, ratio*10), and pose
clarity is min(1, compactness*2) with compactness = 4*pi*area/perimeter^2;
each is clamped to [0, 1]. -/
def evaluateHamsterVisibility (contourFound : Bool) (area frameArea perimeter : ℝ) :
    HamsterMetrics :=
  if contourFound = false then ⟨1/10, 0, 0⟩
  else
    let areaRatio := area / frameArea
    let lo : ℝ := 1/100
    let hi : ℝ := 15/100
    let sizeScore :=
      if lo ≤ areaRatio ∧ areaRatio ≤ hi then
        1 - |areaRatio - (lo + hi)/2| / ((lo + hi)/2)
      else if areaRatio < lo then areaRatio / lo
      else hi / areaRatio
    let visibilityScore := min 1 (areaRatio * 10)
    let poseClarity :=
      if 0 < perimeter ∧ 0 < area then
        min 1 (4 * Real.pi * area / (perimeter * perimeter) * 2)
      else 0
    ⟨max 0 (min 1 visibilityScore), max 0 (min 1 sizeScore), max 0 (min 1 poseClarity)⟩

/-- Embedding of DataQualityAssessor._evaluate_background_stability (lines
448-478).  While fewer than 10 background frames are buffered the score is
0.5; afterwards changeRatio is the measured fraction of pixels deviating by
more than 30 from the rolling mean background, and the score inverts it. -/
def evaluateBackgroundStability (bufferFull : Bool) (changeRatio : ℝ) : ℝ :=
  if bufferFull = false then 1/2 else 1 - min (changeRatio * 5) 1

/-- Embedding of DataQualityAssessor._evaluate_lighting_consistency (lines
480-509): meanVariance is the variance of the 4x4 grid cell mean
brightnesses; consistency = min(1, 1/(1 + variance/100)). -/
def evaluateLightingConsistency (meanVariance : ℝ) : ℝ :=
  min 1 (1 / (1 + meanVariance / 100))

/-- Embedding of DataQualityAssessor._evaluate_shadow_interference (lines
511-532): shadowRatio is the measured fraction of pixels with LAB lightness
below 50; interference = min(ratio*3, 1).  The caller subtracts it from 1. -/
def evaluateShadowInterference (shadowRatio : ℝ) : ℝ :=
  min (shadowRatio * 3) 1

/-- The eleven sub-scores entering the weighted combination of
evaluate_image_quality. -/
structure SubScores where
  blur : ℝ
  brightness : ℝ
  contrast : ℝ
  noise : ℝ
  saturation : ℝ
  hamsterVisibility : ℝ
  hamsterSize : ℝ
  poseClarity : ℝ
  background : ℝ
  lighting : ℝ
  shadow : ℝ

/-- Embedding of the overall-score combination of
DataQualityAssessor.evaluate_image_quality (data_quality.py lines 176-188):
the weighted sum with the noise and shadow scores inverted.  The source
applies no clamping to this value. -/
def overallScore (s : SubScores) : ℝ :=
  s.blur * (2/10) + s.brightness * (1/10) + s.contrast * (1/10) +
  (1 - s.noise) * (1/10) + s.saturation * (5/100) +
  s.hamsterVisibility * (25/100) + s.hamsterSize * (1/10) +
  s.poseClarity * (15/100) + s.background * (3/100) +
  s.lighting * (5/100) + (1 - s.shadow) * (2/100)

/-- Overall score of the internal-error fallback QualityMetrics
(data_quality.py lines 224-237): all scores zeroed, overall 0, level REJECT. -/
def errorFallbackOverall : ℝ := 0

/-- Quality levels of data_quality.py's QualityLevel enum. -/
inductive QualityLevel where
  | excellent
  | good
  | acceptable
  | poor
  | reject
deriving DecidableEq, Repr

/-- Embedding of DataQualityAssessor._determine_quality_level (lines
534-545), with the level thresholds 0.8 / 0.65 / 0.5 / 0.3 tested with an
inclusive lower bound. -/
def determineQualityLevel (overall : ℝ) : QualityLevel :=
  if 8/10 ≤ overall then .excellent
  else if 65/100 ≤ overall then .good
  else if 1/2 ≤ overall then .acceptable
  else if 3/10 ≤ overall then .poor
  else .reject

end

/-- The sub-score vector realized by the leaf evaluators at the measurement
inputs used in the C2 failing input: a perfectly sharp, optimally bright and
contrasted, noise-free frame whose detected blob covers a tenth of the frame. -/
noncomputable def exceedSubScores : SubScores :=
  ⟨evaluateBlur 100 50, evaluateBrightness 125,
   evaluateContrast (3/10 * 255) (3/10 * 255), evaluateNoise 0,
   evaluateSaturation true (11/20),
   (evaluateHamsterVisibility true 10 100 10).visibility,
   (evaluateHamsterVisibility true 10 100 10).size,
   (evaluateHamsterVisibility true 10 100 10).poseClarity,
   evaluateBackgroundStability true 0, evaluateLightingConsistency 0,
   evaluateShadowInterference 0⟩

end DataQuality

/-- C2: evaluate_image_quality applies no clamp to the weighted overall
score, and at the failing input (sub-scores produced by the leaf evaluators
themselves: blur 1, brightness 1, contrast 1, noise 0, saturation 1,
visibility 1, size 0.75, pose clarity 1, background 1, lighting 1,
shadow 0) the returned overall score is 9/8, outside [0, 1]. -/
theorem overall_score_exceeds_one :
    DataQuality.overallScore DataQuality.exceedSubScores = 9/8 ∧
    ¬ (DataQuality.overallScore DataQuality.exceedSubScores ≤ 1) := by
  have hpi : (3 : ℝ) < Real.pi := Real.pi_gt_three
  have hvis : DataQuality.evaluateHamsterVisibility true 10 100 10 =
      ⟨1, 3/4, 1⟩ := by
    unfold DataQuality.evaluateHamsterVisibility
    have hpose : (1 : ℝ) ≤ 4 * Real.pi * 10 / 100 * 2 := by nlinarith
    norm_num [abs_of_nonneg, min_eq_left hpose]
  constructor <;>
    · unfold DataQuality.overallScore DataQuality.exceedSubScores
      rw [hvis]
      norm_num [DataQuality.evaluateBlur, DataQuality.evaluateBrightness,
        DataQuality.evaluateContrast, DataQuality.evaluateNoise,
        DataQuality.evaluateSaturation, DataQuality.evaluateBackgroundStability,
        DataQuality.evaluateLightingConsistency, DataQuality.evaluateShadowInterference]

/-- C6 counterexample: with a reachable history [ir, ir, color] (three prior
detections) and a current color detection, the post-append history is a 2-2
tie between ir and color, and _stabilize_with_history returns color, not the
ir that the claimed tie-break demands. -/
theorem stabilize_tie_returns_color :
    (LightingDetector.stabilizeWithHistory
        ⟨[Mode.ir, Mode.ir, Mode.color], [9/10, 9/10, 8/10]⟩ Mode.color (8/10)).1.1
      = Mode.color ∧
    ((dequeAppend 5 [Mode.ir, Mode.ir, Mode.color] Mode.color).count Mode.ir
      = (dequeAppend 5 [Mode.ir, Mode.ir, Mode.color] Mode.color).count Mode.color) := by
  constructor <;> decide

/-- C6 (amended): once the post-append history holds at least 3 samples,
_stabilize_with_history returns the majority mode over the bounded size-5
history with ties defaulting to color (the source tests ir_count >
color_count and falls to color otherwise), and the returned confidence is
the mean of the stored confidence history.  With fewer than 3 samples the
un-stabilized current values are returned. -/
theorem stabilize_majority_vote (s : LightingDetector.HistoryState) (mode : Mode)
    (confidence : ℚ)
    (h3 : 3 ≤ (dequeAppend 5 s.modeHistory mode).length) :
    let h := dequeAppend 5 s.modeHistory mode
    let c := dequeAppend 5 s.confidenceHistory confidence
    (LightingDetector.stabilizeWithHistory s mode confidence).1
      = (if h.count Mode.color < h.count Mode.ir then Mode.ir else Mode.color,
         LightingDetector.listMean c) := by
  intro h c
  unfold LightingDetector.stabilizeWithHistory
  have hlt : ¬ (dequeAppend 5 s.modeHistory mode).length < 3 :=
    not_lt.mpr h3
  simp only [hlt, if_false]

/-- Witness for the amended C6 theorem at a concrete history of length 3. -/
theorem stabilize_majority_vote_witness :
    3 ≤ (dequeAppend 5 [Mode.ir, Mode.color] Mode.ir).length ∧
    (LightingDetector.stabilizeWithHistory ⟨[Mode.ir, Mode.color], [1, 1/2]⟩ Mode.ir 1).1
      = (if (dequeAppend 5 [Mode.ir, Mode.color] Mode.ir).count Mode.color
            < (dequeAppend 5 [Mode.ir, Mode.color] Mode.ir).count Mode.ir
          then Mode.ir else Mode.color,
         LightingDetector.listMean (dequeAppend 5 [1, 1/2] 1)) :=
  ⟨by decide, stabilize_majority_vote ⟨[Mode.ir, Mode.color], [1, 1/2]⟩ Mode.ir 1 (by decide)⟩

/-- C3 counterexample: the eleven sub-metric weights of
evaluate_image_quality sum to 23/20 = 1.15, not to 1.0. -/
theorem weights_sum_ne_one : DataQuality.weightsSum = 23/20 ∧ DataQuality.weightsSum ≠ 1 := by
  constructor <;> norm_num [DataQuality.weightsSum, DataQuality.weights]

/-- C3 (amended): the eleven quality sub-metric weights used in the weighted
sum for the overall score sum to exactly 1.15, not 1.0. -/
theorem weights_sum_eq : DataQuality.weightsSum = 23/20 := by
  norm_num [DataQuality.weightsSum, DataQuality.weights]

namespace MotionDetector

/-- Foreign geometric measurements of one OpenCV contour, as queried by
motion_detector.py: cv2.contourArea, cv2.boundingRect, the area of the
convex hull, cv2.moments (m00, m10, m01) and cv2.arcLength. -/
structure Contour where
  area : ℚ
  x : ℕ
  y : ℕ
  w : ℕ
  h : ℕ
  hullArea : ℚ
  m00 : ℚ
  m10 : ℚ
  m01 : ℚ
  perimeter : ℚ
deriving DecidableEq, Repr

/-- Aspect ratio w / h of a contour's bounding box, 0 when h = 0
(motion_detector.py line 201). -/
def aspectRatio (c : Contour) : ℚ :=
  if 0 < c.h then (c.w : ℚ) / (c.h : ℚ) else 0

/-- Solidity area / hull_area of a contour, 0 when hull_area = 0
(motion_detector.py line 208). -/
def solidity (c : Contour) : ℚ :=
  if 0 < c.hullArea then c.area / c.hullArea else 0

/-- Qualification predicate of MotionDetector._filter_hamster_contours
(motion_detector.py lines 187-215): area within [300, 8000] px^2,
bounding-box aspect ratio within [0.3, 3.0], and solidity at least 0.5
(the source skips a contour when solidity < 0.5). -/
def qualifies (c : Contour) : Prop :=
  (300 ≤ c.area ∧ c.area ≤ 8000) ∧
  (3/10 ≤ aspectRatio c ∧ aspectRatio c ≤ 3) ∧
  ¬ (solidity c < 1/2)

instance (c : Contour) : Decidable (qualifies c) := by
  unfold qualifies
  infer_instance

/-- Embedding of MotionDetector._filter_hamster_contours: keep the
qualifying contours, in order. -/
def filterHamsterContours (cs : List Contour) : List Contour :=
  cs.filter (fun c => decide (qualifies c))

/-- Truncation toward zero, the behavior of Python's int() on a float. -/
def pyTrunc (q : ℚ) : ℤ := Int.tdiv q.num q.den

/-- Embedding of the MotionEvent dataclass (motion_detector.py lines
27-38).  The source stores the originating contour in the contours list
field; here srcContour holds it. -/
structure MotionEvent where
  timestamp : ℚ
  center : ℤ × ℤ
  area : ℚ
  velocityPixel : ℝ
  velocityMm : ℝ
  confidence : ℝ
  motionType : String
  boundingBox : ℕ × ℕ × ℕ × ℕ
  srcContour : Contour

noncomputable section

/-- Embedding of MotionDetector._classify_motion_type (lines 294-310):
thresholds 100/50 mm/s when a positive mm velocity is available, else
50/20 px/s on the pixel velocity. -/
def classifyMotionType (velocityPixel velocityMm : ℝ) : String :=
  if 0 < velocityMm then
    if 100 < velocityMm then "rapid" else if 50 < velocityMm then "medium" else "slow"
  else
    if 50 < velocityPixel then "rapid" else if 20 < velocityPixel then "medium" else "slow"

/-- Embedding of MotionDetector._calculate_confidence (lines 312-332):
0.4 x area closeness to the midpoint 4150 of [300, 8000], plus 0.3 x
clipped circularity 4*pi*area/perimeter^2 (skipped when the perimeter is
0), plus 0.3 x closeness of the velocity to the ideal 50 (only for
velocity in [1, 200]); the total is clamped to [0, 1]. -/
def calculateConfidence (perimeter area : ℚ) (velocity : ℝ) : ℝ :=
  let idealArea : ℝ := (300 + 8000) / 2
  let areaScore : ℝ := 1 - |(area : ℝ) - idealArea| / idealArea
  let base := areaScore * (4/10)
  let withCirc :=
    if 0 < perimeter then
      base + min (4 * Real.pi * (area : ℝ) / ((perimeter : ℝ) * (perimeter : ℝ)) * 2) 1 * (3/10)
    else base
  let withVel :=
    if 1 ≤ velocity ∧ velocity ≤ 200 then
      withCirc + max (1 - |velocity - 50| / 50) 0 * (3/10)
    else withCirc
  max 0 (min 1 withVel)

/-- Embedding of MotionDetector._create_motion_event (lines 217-292).
The optional calibrator abstracts CoordinateCalibrator.pixel_to_mm; a
missing calibrator (or a conversion error) leaves velocity_mm at 0. The
produced event also carries the updated last_position (the new centroid)
through the caller's fold. -/
def createMotionEvent (calibrator : Option ((ℤ × ℤ) → ℚ × ℚ))
    (lastPosition : Option (ℤ × ℤ)) (timestamp : ℚ) (c : Contour) :
    Option MotionEvent :=
  if c.m00 = 0 then none
  else
    let cx := pyTrunc (c.m10 / c.m00)
    let cy := pyTrunc (c.m01 / c.m00)
    let velocityPixel : ℝ :=
      match lastPosition with
      | none => 0
      | some lp =>
          Real.sqrt ((((cx - lp.1 : ℤ) : ℝ)) ^ 2 + (((cy - lp.2 : ℤ) : ℝ)) ^ 2) * 30
    let velocityMm : ℝ :=
      match lastPosition, calibrator with
      | some lp, some cal =>
          let cur := cal (cx, cy)
          let prev := cal lp
          Real.sqrt ((((cur.1 - prev.1 : ℚ)) : ℝ) ^ 2 + (((cur.2 - prev.2 : ℚ)) : ℝ) ^ 2) * 30
      | _, _ => 0
    some
      { timestamp := timestamp
        center := (cx, cy)
        area := c.area
        velocityPixel := velocityPixel
        velocityMm := velocityMm
        confidence := calculateConfidence c.perimeter c.area velocityPixel
        motionType := classifyMotionType velocityPixel velocityMm
        boundingBox := (c.x, c.y, c.w, c.h)
        srcContour := c }

/-- Tracking state threaded through the event-creation loop of
detect_motion: last_position and the velocity_history deque (maxlen 10). -/
structure TrackState where
  lastPosition : Option (ℤ × ℤ)
  velocityHistory : List ℝ

/-- The per-contour loop of detect_motion (lines 141-145) together with the
state updates done at the end of _create_motion_event (lines 283-286):
last_position becomes the new centroid and a positive mm velocity is
appended to velocity_history. -/
def processContours (calibrator : Option ((ℤ × ℤ) → ℚ × ℚ)) (timestamp : ℚ) :
    TrackState → List Contour → List MotionEvent × TrackState
  | st, [] => ([], st)
  | st, c :: rest =>
      match createMotionEvent calibrator st.lastPosition timestamp c with
      | none => processContours calibrator timestamp st rest
      | some e =>
          let st2 : TrackState :=
            { lastPosition := some e.center
              velocityHistory :=
                if 0 < e.velocityMm then dequeAppend 10 st.velocityHistory e.velocityMm
                else st.velocityHistory }
          let (es, st3) := processContours calibrator timestamp st2 rest
          (e :: es, st3)

/-- Events produced by one detect_motion call (lines 110-158) on the given
contour list: the contours are filtered by _filter_hamster_contours and
events are created sequentially. -/
def detectMotionEvents (calibrator : Option ((ℤ × ℤ) → ℚ × ℚ))
    (st : TrackState) (timestamp : ℚ) (cs : List Contour) :
    List MotionEvent × TrackState :=
  processContours calibrator timestamp st (filterHamsterContours cs)

end

end MotionDetector

namespace MotionDetector

/-- Every event produced by the contour loop originates from a contour of
the processed list, and carries that contour's area. -/
theorem processContours_mem {cal : Option ((ℤ × ℤ) → ℚ × ℚ)} {ts : ℚ} :
    ∀ (l : List Contour) (st : TrackState) (e : MotionEvent),
      e ∈ (processContours cal ts st l).1 →
      e.srcContour ∈ l ∧ e.area = e.srcContour.area := by
  intro l
  induction l with
  | nil =>
      intro st e h
      simp [processContours] at h
  | cons c rest ih =>
      intro st e h
      unfold processContours at h
      cases hc : createMotionEvent cal st.lastPosition ts c with
      | none =>
          rw [hc] at h
          rcases ih _ e h with ⟨hmem, harea⟩
          exact ⟨List.mem_cons_of_mem _ hmem, harea⟩
      | some ev =>
          rw [hc] at h
          simp only [List.mem_cons] at h ⊢
          rcases h with h | h
          · subst h
            unfold createMotionEvent at hc
            by_cases hm : c.m00 = 0
            · simp [hm] at hc
            · rw [if_neg hm] at hc
              cases hc
              exact ⟨Or.inl rfl, rfl⟩
          · rcases ih _ e h with ⟨hmem, harea⟩
            exact ⟨Or.inr hmem, harea⟩

end MotionDetector

namespace MotionDetector

/-- Concrete qualifying contour used to witness the C8 theorem: a 50x50
blob of area 2000 px^2, solidity 1 and centroid (25, 25). -/
def witnessContour : Contour :=
  { area := 2000, x := 0, y := 0, w := 50, h := 50, hullArea := 2000,
    m00 := 2000, m10 := 50000, m01 := 50000, perimeter := 180 }

/-- The event detect_motion produces for witnessContour on a fresh detector
(no last position, no calibrator). -/
noncomputable def witnessEvent : MotionEvent :=
  { timestamp := 0
    center := (pyTrunc ((50000 : ℚ) / 2000), pyTrunc ((50000 : ℚ) / 2000))
    area := 2000
    velocityPixel := 0
    velocityMm := 0
    confidence := calculateConfidence 180 2000 0
    motionType := classifyMotionType 0 0
    boundingBox := (0, 0, 50, 50)
    srcContour := witnessContour }

end MotionDetector

/-- C8: detect_motion emits a MotionEvent only for contours that pass
_filter_hamster_contours: the source contour of every emitted event is one
of the input contours, has area within [300, 8000] px^2, bounding-box
aspect ratio within [0.3, 3.0] and solidity at least 0.5, and the event
records that contour's area; in particular no event is ever emitted for a
contour whose area lies outside [300, 8000] px^2. -/
theorem detect_motion_filters_contours
    (cal : Option ((ℤ × ℤ) → ℚ × ℚ)) (st : MotionDetector.TrackState) (ts : ℚ)
    (cs : List MotionDetector.Contour) (e : MotionDetector.MotionEvent)
    (he : e ∈ (MotionDetector.detectMotionEvents cal st ts cs).1) :
    e.srcContour ∈ cs ∧
    (300 ≤ e.srcContour.area ∧ e.srcContour.area ≤ 8000) ∧
    (3/10 ≤ MotionDetector.aspectRatio e.srcContour ∧
      MotionDetector.aspectRatio e.srcContour ≤ 3) ∧
    1/2 ≤ MotionDetector.solidity e.srcContour ∧
    e.area = e.srcContour.area := by
  unfold MotionDetector.detectMotionEvents at he
  rcases MotionDetector.processContours_mem _ _ _ he with ⟨hmem, harea⟩
  rw [MotionDetector.filterHamsterContours, List.mem_filter] at hmem
  rcases hmem with ⟨hin, hq⟩
  rw [decide_eq_true_eq] at hq
  rcases hq with ⟨ha, hr, hs⟩
  exact ⟨hin, ha, hr, not_lt.mp hs, harea⟩

/-- Witness for the C8 theorem: on a fresh detector state the qualifying
witnessContour yields exactly witnessEvent, whose source contour satisfies
all the filter bounds. -/
theorem detect_motion_filters_contours_witness :
    MotionDetector.witnessEvent.srcContour ∈ [MotionDetector.witnessContour] ∧
    (300 ≤ MotionDetector.witnessEvent.srcContour.area ∧
      MotionDetector.witnessEvent.srcContour.area ≤ 8000) ∧
    (3/10 ≤ MotionDetector.aspectRatio MotionDetector.witnessEvent.srcContour ∧
      MotionDetector.aspectRatio MotionDetector.witnessEvent.srcContour ≤ 3) ∧
    1/2 ≤ MotionDetector.solidity MotionDetector.witnessEvent.srcContour ∧
    MotionDetector.witnessEvent.area = MotionDetector.witnessEvent.srcContour.area :=
  detect_motion_filters_contours none ⟨none, []⟩ 0 [MotionDetector.witnessContour]
    MotionDetector.witnessEvent
    (by
      have hq : MotionDetector.qualifies MotionDetector.witnessContour := by
        refine ⟨⟨by norm_num [MotionDetector.witnessContour],
                 by norm_num [MotionDetector.witnessContour]⟩, ⟨?_, ?_⟩, ?_⟩ <;>
          norm_num [MotionDetector.aspectRatio, MotionDetector.solidity,
            MotionDetector.witnessContour]
      have hm : MotionDetector.witnessContour.m00 ≠ 0 := by
        norm_num [MotionDetector.witnessContour]
      simp only [MotionDetector.detectMotionEvents, MotionDetector.filterHamsterContours,
        List.filter, decide_eq_true hq]
      simp only [MotionDetector.processContours, MotionDetector.createMotionEvent,
        if_neg hm]
      simp [MotionDetector.witnessEvent, MotionDetector.witnessContour])

namespace MotionDetector

/-- One motion_history entry (motion_detector.py lines 357-362): the
timestamp of the _update_stats call, the count of valid (confidence > 0.5)
events of the frame, and their maximal mm velocity (default 0). -/
structure HistEntry where
  ts : ℚ
  eventCount : ℕ
  maxVelocity : ℝ

/-- Embedding of the MotionStats dataclass fields mutated by _update_stats
and _evaluate_activity_state. -/
structure MotionStats where
  totalDetections : ℕ
  validDetections : ℕ
  averageVelocityMm : ℝ
  maxVelocityMm : ℝ
  activePeriods : ℕ
  restPeriods : ℕ

/-- Mutable detector state relevant to the activity machinery: the stats,
the motion_history deque (maxlen 30), current_activity_state and
last_activity_change (motion_detector.py lines 91, 96, 103-104). -/
structure ActivityState where
  stats : MotionStats
  motionHistory : List HistEntry
  currentActivityState : String
  lastActivityChange : ℚ

/-- State set by MotionDetector.__init__: activity state "unknown" and
last_activity_change = the construction time. -/
def initialActivityState (constructionTime : ℚ) : ActivityState :=
  { stats := ⟨0, 0, 0, 0, 0, 0⟩
    motionHistory := []
    currentActivityState := "unknown"
    lastActivityChange := constructionTime }

/-- Python max(list) with a default for the empty list. -/
noncomputable def listMax (l : List ℝ) (default : ℝ) : ℝ :=
  match l with
  | [] => default
  | x :: xs => xs.foldl max x

/-- Arithmetic mean of a nonempty real list (np.mean). -/
noncomputable def listMeanR (l : List ℝ) : ℝ := l.sum / l.length

/-- Valid events of a frame: confidence strictly above 0.5
(motion_detector.py lines 336, 367). -/
noncomputable def validEvents (events : List MotionEvent) : List MotionEvent :=
  events.filter (fun e => decide ((1 : ℝ)/2 < e.confidence))

/-- Embedding of MotionDetector._update_stats (lines 334-362).  detect_motion
calls it with the frame's events; now is the wall-clock time stamped on the
appended motion_history entry (the source stamps datetime.now(), which on the
default detect_motion path coincides with the frame timestamp). -/
noncomputable def updateStats (s : ActivityState) (events : List MotionEvent) (now : ℚ) :
    ActivityState :=
  let valid := validEvents events
  let st1 : MotionStats :=
    { s.stats with
      totalDetections := s.stats.totalDetections + events.length
      validDetections := s.stats.validDetections + valid.length }
  let st2 :=
    if valid.isEmpty then st1
    else
      let velocities := (valid.map (fun e => e.velocityMm)).filter (fun v => decide ((0 : ℝ) < v))
      if velocities.isEmpty then st1
      else
        let avgVelocity := listMeanR velocities
        let maxVelocity := listMax velocities 0
        let newAvg :=
          if st1.averageVelocityMm = 0 then avgVelocity
          else (1 - 1/10) * st1.averageVelocityMm + (1/10) * avgVelocity
        { st1 with
          averageVelocityMm := newAvg
          maxVelocityMm := max st1.maxVelocityMm maxVelocity }
  { s with
    stats := st2
    motionHistory :=
      dequeAppend 30 s.motionHistory
        ⟨now, valid.length, listMax (valid.map (fun e => e.velocityMm)) 0⟩ }

/-- Candidate activity state of _evaluate_activity_state (lines 369-376):
sum the event counts of the motion_history entries within the trailing
60-second window; more than 10 gives "active", else "rest". -/
def newActivityState (history : List HistEntry) (timestamp : ℚ) : String :=
  let recent := history.filter (fun h => decide (timestamp - h.ts ≤ 60))
  let totalActivity : ℕ := (recent.map (fun h => h.eventCount)).sum
  if 10 < totalActivity then "active" else "rest"

/-- Embedding of MotionDetector._evaluate_activity_state (lines 364-397).
The candidate is committed exactly when it differs from the current state
and at least 30 seconds have passed since last_activity_change (the time of
the previous committed change, initially the construction time); on a
commit the activity callback fires with the new state (returned here as the
optional second component). -/
noncomputable def evaluateActivityState (s : ActivityState) (timestamp : ℚ) :
    ActivityState × Option String :=
  let ns := newActivityState s.motionHistory timestamp
  if ns ≠ s.currentActivityState then
    if 30 ≤ timestamp - s.lastActivityChange then
      let stats2 :=
        if ns = "active" then { s.stats with activePeriods := s.stats.activePeriods + 1 }
        else { s.stats with restPeriods := s.stats.restPeriods + 1 }
      ({ s with
          currentActivityState := ns
          lastActivityChange := timestamp
          stats := stats2 }, some ns)
    else (s, none)
  else (s, none)

/-- The stats-and-activity tail of one detect_motion call (lines 147-151):
_update_stats on the frame's events followed by _evaluate_activity_state at
the frame timestamp. -/
noncomputable def activityStep (s : ActivityState) (events : List MotionEvent)
    (timestamp : ℚ) : ActivityState × Option String :=
  evaluateActivityState (updateStats s events timestamp) timestamp

end MotionDetector

namespace MotionDetector

/-- Concrete high-confidence event used to drive the C9 counterexample
trace (confidence 1 > 0.5, so it counts as valid activity). -/
noncomputable def activeEvent : MotionEvent :=
  { timestamp := 80, center := (0, 0), area := 2000, velocityPixel := 0,
    velocityMm := 0, confidence := 1, motionType := "slow",
    boundingBox := (0, 0, 50, 50), srcContour := witnessContour }

/-- C9 counterexample trace: detector constructed at t = 0; quiet frames at
t = 40 and t = 60; a burst of 12 valid events at t = 80. -/
noncomputable def traceStep1 : ActivityState × Option String :=
  activityStep (initialActivityState 0) [] 40

/-- Second step of the C9 counterexample trace. -/
noncomputable def traceStep2 : ActivityState × Option String :=
  activityStep traceStep1.1 [] 60

/-- Third step of the C9 counterexample trace. -/
noncomputable def traceStep3 : ActivityState × Option String :=
  activityStep traceStep2.1 (List.replicate 12 activeEvent) 80

end MotionDetector

/-- Characterization of one activity evaluation: the state commits exactly
when the candidate differs and 30 seconds have passed since the previous
committed change. -/
theorem activityStep_spec (s : MotionDetector.ActivityState)
    (events : List MotionDetector.MotionEvent) (ts : ℚ) :
    if MotionDetector.newActivityState
          (MotionDetector.updateStats s events ts).motionHistory ts
        ≠ s.currentActivityState ∧ 30 ≤ ts - s.lastActivityChange then
      (MotionDetector.activityStep s events ts).1.currentActivityState
        = MotionDetector.newActivityState
            (MotionDetector.updateStats s events ts).motionHistory ts ∧
      (MotionDetector.activityStep s events ts).2
        = some (MotionDetector.newActivityState
            (MotionDetector.updateStats s events ts).motionHistory ts) ∧
      (MotionDetector.activityStep s events ts).1.lastActivityChange = ts
    else
      (MotionDetector.activityStep s events ts).1.currentActivityState
        = s.currentActivityState ∧
      (MotionDetector.activityStep s events ts).2 = none ∧
      (MotionDetector.activityStep s events ts).1.lastActivityChange
        = s.lastActivityChange := by
  have hcur : (MotionDetector.updateStats s events ts).currentActivityState
      = s.currentActivityState := rfl
  have hlast : (MotionDetector.updateStats s events ts).lastActivityChange
      = s.lastActivityChange := rfl
  unfold MotionDetector.activityStep MotionDetector.evaluateActivityState
  dsimp only
  rw [hcur, hlast]
  by_cases h1 : MotionDetector.newActivityState
      (MotionDetector.updateStats s events ts).motionHistory ts
      ≠ s.currentActivityState
  · by_cases h2 : 30 ≤ ts - s.lastActivityChange
    · rw [if_pos ⟨h1, h2⟩, if_pos h1, if_pos h2]
      by_cases h3 : MotionDetector.newActivityState
          (MotionDetector.updateStats s events ts).motionHistory ts = "active" <;>
        simp [h3]
    · rw [if_neg (by tauto), if_pos h1, if_neg h2]
      exact ⟨rfl, rfl, rfl⟩
  · rw [if_neg (by tauto), if_neg h1]
    exact ⟨rfl, rfl, rfl⟩

/-- The activity evaluation never modifies the motion history; only
_update_stats appends to it. -/
theorem activityStep_history (s : MotionDetector.ActivityState)
    (events : List MotionDetector.MotionEvent) (ts : ℚ) :
    (MotionDetector.activityStep s events ts).1.motionHistory
      = (MotionDetector.updateStats s events ts).motionHistory := by
  unfold MotionDetector.activityStep MotionDetector.evaluateActivityState
  dsimp only
  split_ifs <;> rfl

/-- C9 (amended): one detect_motion evaluation commits a new activity state
exactly when the candidate derived from the trailing 60-second window
differs from the current state and at least 30 seconds have elapsed since
the last committed change (initially since construction) - a minimum dwell
time on the committed state, not a 30-second persistence requirement on the
differing candidate; only on a commit does the activity callback fire, with
the new state. -/
theorem activity_state_min_dwell (s : MotionDetector.ActivityState)
    (events : List MotionDetector.MotionEvent) (ts : ℚ) :
    let s1 := MotionDetector.updateStats s events ts
    let cand := MotionDetector.newActivityState s1.motionHistory ts
    if cand ≠ s.currentActivityState ∧ 30 ≤ ts - s.lastActivityChange then
      (MotionDetector.activityStep s events ts).1.currentActivityState = cand ∧
      (MotionDetector.activityStep s events ts).2 = some cand ∧
      (MotionDetector.activityStep s events ts).1.lastActivityChange = ts
    else
      (MotionDetector.activityStep s events ts).1.currentActivityState
        = s.currentActivityState ∧
      (MotionDetector.activityStep s events ts).2 = none ∧
      (MotionDetector.activityStep s events ts).1.lastActivityChange
        = s.lastActivityChange :=
  activityStep_spec s events ts

/-- C9 counterexample: the detector is constructed at t = 0; quiet frames
arrive at t = 40 (committing the state "rest") and at t = 60 (candidate
"rest", equal to the current state); at t = 80 a burst of 12 valid events
makes the candidate "active" for the very first time, and the state commits
to "active" immediately - even though 20 seconds earlier the candidate
still equaled the current state, so the differing candidate did not
persist for 30 seconds before the change. -/
theorem activity_commit_without_candidate_persistence :
    MotionDetector.traceStep1.1.currentActivityState = "rest" ∧
    MotionDetector.traceStep2.1.currentActivityState = "rest" ∧
    MotionDetector.newActivityState
        (MotionDetector.updateStats MotionDetector.traceStep1.1 [] 60).motionHistory 60
      = "rest" ∧
    MotionDetector.traceStep3.1.currentActivityState = "active" ∧
    MotionDetector.traceStep3.2 = some "active" ∧
    ((80 : ℚ) - 60 < 30) := by
  -- step 1: history after the t = 40 update
  have hu1hist : (MotionDetector.updateStats (MotionDetector.initialActivityState 0) [] 40).motionHistory
      = [⟨40, 0, 0⟩] := by
    simp [MotionDetector.updateStats, MotionDetector.validEvents, dequeAppend,
      MotionDetector.listMax, MotionDetector.initialActivityState]
  have hcand1 : MotionDetector.newActivityState
      (MotionDetector.updateStats (MotionDetector.initialActivityState 0) [] 40).motionHistory 40
      = "rest" := by
    rw [hu1hist]
    simp only [MotionDetector.newActivityState, List.filter_cons, List.filter_nil,
      decide_eq_true_eq]
    norm_num
  have h1 := activityStep_spec (MotionDetector.initialActivityState 0) [] 40
  rw [hcand1, if_pos
      (by exact ⟨by simp [MotionDetector.initialActivityState],
                 by simp [MotionDetector.initialActivityState]; norm_num⟩)] at h1
  obtain ⟨h1cur, h1out, h1last⟩ := h1
  have t1cur : MotionDetector.traceStep1.1.currentActivityState = "rest" := by
    rw [MotionDetector.traceStep1]; exact h1cur
  have t1last : MotionDetector.traceStep1.1.lastActivityChange = 40 := by
    rw [MotionDetector.traceStep1]; exact h1last
  have t1hist : MotionDetector.traceStep1.1.motionHistory = [⟨40, 0, 0⟩] := by
    rw [MotionDetector.traceStep1, activityStep_history, hu1hist]
  -- step 2: quiet frame at t = 60, candidate equals the current state
  have hu2hist : (MotionDetector.updateStats MotionDetector.traceStep1.1 [] 60).motionHistory
      = [⟨40, 0, 0⟩, ⟨60, 0, 0⟩] := by
    have hstep : (MotionDetector.updateStats MotionDetector.traceStep1.1 [] 60).motionHistory
        = dequeAppend 30 MotionDetector.traceStep1.1.motionHistory ⟨60, 0, 0⟩ := by
      simp [MotionDetector.updateStats, MotionDetector.validEvents, MotionDetector.listMax]
    rw [hstep, t1hist]
    simp [dequeAppend]
  have hcand2 : MotionDetector.newActivityState
      (MotionDetector.updateStats MotionDetector.traceStep1.1 [] 60).motionHistory 60
      = "rest" := by
    rw [hu2hist]
    simp only [MotionDetector.newActivityState, List.filter_cons, List.filter_nil,
      decide_eq_true_eq]
    norm_num
  have h2 := activityStep_spec MotionDetector.traceStep1.1 [] 60
  rw [hcand2, if_neg (by rw [t1cur]; simp)] at h2
  obtain ⟨h2cur, h2out, h2last⟩ := h2
  have t2cur : MotionDetector.traceStep2.1.currentActivityState = "rest" := by
    rw [MotionDetector.traceStep2, h2cur, t1cur]
  have t2last : MotionDetector.traceStep2.1.lastActivityChange = 40 := by
    rw [MotionDetector.traceStep2, h2last, t1last]
  have t2hist : MotionDetector.traceStep2.1.motionHistory = [⟨40, 0, 0⟩, ⟨60, 0, 0⟩] := by
    rw [MotionDetector.traceStep2, activityStep_history, hu2hist]
  -- step 3: 12 valid events at t = 80
  have hvalid : MotionDetector.validEvents (List.replicate 12 MotionDetector.activeEvent)
      = List.replicate 12 MotionDetector.activeEvent := by
    rw [MotionDetector.validEvents, List.filter_eq_self]
    intro a ha
    rw [List.eq_of_mem_replicate ha]
    exact decide_eq_true (by norm_num [MotionDetector.activeEvent])
  have hu3hist : (MotionDetector.updateStats MotionDetector.traceStep2.1
        (List.replicate 12 MotionDetector.activeEvent) 80).motionHistory
      = [⟨40, 0, 0⟩, ⟨60, 0, 0⟩,
         ⟨80, 12, MotionDetector.listMax
            ((List.replicate 12 MotionDetector.activeEvent).map fun e => e.velocityMm) 0⟩] := by
    have hstep : (MotionDetector.updateStats MotionDetector.traceStep2.1
          (List.replicate 12 MotionDetector.activeEvent) 80).motionHistory
        = dequeAppend 30 MotionDetector.traceStep2.1.motionHistory
            ⟨80, 12, MotionDetector.listMax
              ((List.replicate 12 MotionDetector.activeEvent).map fun e => e.velocityMm) 0⟩ := by
      simp only [MotionDetector.updateStats, hvalid, List.length_replicate]
    rw [hstep, t2hist]
    simp [dequeAppend]
  have hcand3 : MotionDetector.newActivityState
      (MotionDetector.updateStats MotionDetector.traceStep2.1
        (List.replicate 12 MotionDetector.activeEvent) 80).motionHistory 80
      = "active" := by
    rw [hu3hist]
    simp only [MotionDetector.newActivityState, List.filter_cons, List.filter_nil,
      decide_eq_true_eq]
    norm_num
  have h3 := activityStep_spec MotionDetector.traceStep2.1
    (List.replicate 12 MotionDetector.activeEvent) 80
  rw [hcand3, if_pos (by
        refine ⟨by rw [t2cur]; simp, ?_⟩
        rw [t2last]
        norm_num)] at h3
  obtain ⟨h3cur, h3out, h3last⟩ := h3
  have t3cur : MotionDetector.traceStep3.1.currentActivityState = "active" := by
    rw [MotionDetector.traceStep3]; exact h3cur
  have t3out : MotionDetector.traceStep3.2 = some "active" := by
    rw [MotionDetector.traceStep3]; exact h3out
  exact ⟨t1cur, t2cur, hcand2, t3cur, t3out, by norm_num⟩

namespace LightingDetector

/-- Population mean of a channel (np.mean over the flattened float64
channel), with n pixels indexed by Fin n. -/
def vmean {n : ℕ} (x : Fin n → ℚ) : ℚ := (∑ i, x i) / n

/-- Population variance of a channel (np.std squared; numpy uses ddof 0). -/
def vvar {n : ℕ} (x : Fin n → ℚ) : ℚ := (∑ i, (x i - vmean x) ^ 2) / n

/-- Population covariance of two channels. -/
def vcov {n : ℕ} (x y : Fin n → ℚ) : ℚ :=
  (∑ i, (x i - vmean x) * (y i - vmean y)) / n

/-- Pearson correlation of two channels, the value np.corrcoef[0, 1]
computes: covariance over the square root of the variance product. -/
noncomputable def vcorr {n : ℕ} (x y : Fin n → ℚ) : ℝ :=
  (vcov x y : ℝ) / Real.sqrt ((vvar x : ℝ) * (vvar y : ℝ))

/-- The three color channels of a frame with n pixels, as split by
cv2.split and flattened to float64 (pixel values are 0..255 integers). -/
structure RgbFrame (n : ℕ) where
  b : Fin n → ℚ
  g : Fin n → ℚ
  r : Fin n → ℚ

/-- Embedding of LightingModeDetector._detect_by_rgb_correlation
(lighting_detector.py lines 129-180).  The guard np.std(channel) < 1e-6 is
expressed on the variance as var < (1e-6)^2, which is equivalent since the
standard deviation is the square root of the nonnegative variance.  In the
else branch every variance is at least 1e-12 > 0, so all three pairwise
correlations are finite in exact arithmetic and the source's NaN/Inf
filter keeps all three; the average is compared against the lowered
threshold 0.9 of line 169. -/
noncomputable def detectByRgbCorrelation {n : ℕ} (fr : RgbFrame n) : Mode × ℝ :=
  if vvar fr.b < (1/1000000) ^ 2 ∨ vvar fr.g < (1/1000000) ^ 2 ∨
      vvar fr.r < (1/1000000) ^ 2 then
    (Mode.ir, 9/10)
  else
    let corrBG := vcorr fr.b fr.g
    let corrBR := vcorr fr.b fr.r
    let corrGR := vcorr fr.g fr.r
    let avgCorrelation := (corrBG + corrBR + corrGR) / 3
    if 9/10 < avgCorrelation then (Mode.ir, min 1 (avgCorrelation + 1/10))
    else (Mode.color, max (1/2) (1 - avgCorrelation))

/-- A channel that is 0 everywhere except for value 1 at one pixel p: the
smallest perturbation of a constant uint8 channel. -/
def spike (n : ℕ) (p : Fin n) : Fin n → ℚ := fun i => if i = p then 1 else 0

/-- The number of pixels of a 1024 x 1024 frame, used for the C7
counterexample. -/
def bigN : ℕ := 1048576

/-- C7 counterexample frame: three spike channels with the spikes at three
distinct pixels, so that every channel variance is tiny but positive. -/
def exFrame : RgbFrame bigN :=
  ⟨spike bigN ⟨0, by norm_num [bigN]⟩,
   spike bigN ⟨1, by norm_num [bigN]⟩,
   spike bigN ⟨2, by norm_num [bigN]⟩⟩

end LightingDetector

namespace LightingDetector

/-- Expansion of a sum of squared deviations. -/
theorem sum_sq_deviation {n : ℕ} (x : Fin n → ℚ) (c : ℚ) :
    ∑ i, (x i - c) ^ 2 = (∑ i, x i ^ 2) - 2 * c * (∑ i, x i) + n * c ^ 2 := by
  have h : ∀ i : Fin n, (x i - c) ^ 2 = x i ^ 2 - (2 * c * x i - c ^ 2) := by
    intro i; ring
  rw [Finset.sum_congr rfl fun i _ => h i, Finset.sum_sub_distrib,
    Finset.sum_sub_distrib, ← Finset.mul_sum, Finset.sum_const,
    Finset.card_univ, Fintype.card_fin, nsmul_eq_mul]
  ring

/-- Expansion of a sum of products of deviations. -/
theorem sum_mul_deviation {n : ℕ} (x y : Fin n → ℚ) (c d : ℚ) :
    ∑ i, (x i - c) * (y i - d)
      = (∑ i, x i * y i) - d * (∑ i, x i) - c * (∑ i, y i) + n * (c * d) := by
  have h : ∀ i : Fin n, (x i - c) * (y i - d)
      = x i * y i - (d * x i + (c * y i - c * d)) := by
    intro i; ring
  rw [Finset.sum_congr rfl fun i _ => h i, Finset.sum_sub_distrib,
    Finset.sum_add_distrib, Finset.sum_sub_distrib, ← Finset.mul_sum,
    ← Finset.mul_sum, Finset.sum_const, Finset.card_univ, Fintype.card_fin,
    nsmul_eq_mul]
  ring

/-- A spike channel sums to 1. -/
theorem sum_spike {n : ℕ} (p : Fin n) : ∑ i, spike n p i = 1 := by
  unfold spike
  exact Fintype.sum_ite_eq' p fun _ => (1 : ℚ)

/-- The squares of a 0/1 spike channel sum to 1. -/
theorem sum_sq_spike {n : ℕ} (p : Fin n) : ∑ i, spike n p i ^ 2 = 1 := by
  have h : ∀ i : Fin n, spike n p i ^ 2 = spike n p i := by
    intro i; unfold spike; by_cases hip : i = p <;> simp [hip]
  rw [Finset.sum_congr rfl fun i _ => h i]
  exact sum_spike p

/-- Two spikes at distinct pixels have orthogonal channels. -/
theorem sum_mul_spike {n : ℕ} {p q : Fin n} (hpq : p ≠ q) :
    ∑ i, spike n p i * spike n q i = 0 := by
  apply Finset.sum_eq_zero
  intro i _
  unfold spike
  by_cases hip : i = p
  · subst hip
    rw [if_pos rfl, if_neg hpq, mul_zero]
  · rw [if_neg hip, zero_mul]

/-- Mean of a spike channel. -/
theorem vmean_spike {n : ℕ} (p : Fin n) : vmean (spike n p) = 1 / n := by
  unfold vmean
  rw [sum_spike]

/-- Variance of a spike channel. -/
theorem vvar_spike {n : ℕ} (p : Fin n) (hn : (n : ℚ) ≠ 0) :
    vvar (spike n p) = (1 - 1 / n) / n := by
  unfold vvar
  rw [vmean_spike, sum_sq_deviation, sum_sq_spike, sum_spike]
  field_simp
  ring

/-- Covariance of two spikes at distinct pixels. -/
theorem vcov_spike {n : ℕ} {p q : Fin n} (hpq : p ≠ q) (hn : (n : ℚ) ≠ 0) :
    vcov (spike n p) (spike n q) = -(1 / (n : ℚ) ^ 2) := by
  unfold vcov
  rw [vmean_spike, vmean_spike, sum_mul_deviation, sum_mul_spike hpq,
    sum_spike, sum_spike]
  field_simp
  ring

/-- The correlation of two distinct spikes is not positive: the covariance
is negative and the square-root denominator is nonnegative. -/
theorem vcorr_spike_nonpos {n : ℕ} {p q : Fin n} (hpq : p ≠ q)
    (hn : (n : ℚ) ≠ 0) : vcorr (spike n p) (spike n q) ≤ 0 := by
  unfold vcorr
  apply div_nonpos_iff.mpr
  right
  refine ⟨?_, Real.sqrt_nonneg _⟩
  rw [vcov_spike hpq hn]
  push_cast
  apply neg_nonpos_of_nonneg
  positivity

end LightingDetector

namespace LightingDetector

/-- Uniform 4-pixel frame with all three channels constant zero, used to
witness the amended C7 theorem. -/
def flatFrame : RgbFrame 4 := ⟨fun _ => 0, fun _ => 0, fun _ => 0⟩

end LightingDetector

/-- C7 counterexample: in the 1024x1024 frame exFrame every channel has
variance below 1e-6 (but standard deviation above the source's 1e-6 guard),
and _detect_by_rgb_correlation returns color, not ir: the guard in the
source is on the standard deviation, not the variance, and the three
pairwise correlations of the anti-aligned spikes are not positive. -/
theorem rgb_correlation_variance_counterexample :
    (LightingDetector.vvar LightingDetector.exFrame.b < 1/1000000 ∧
     LightingDetector.vvar LightingDetector.exFrame.g < 1/1000000 ∧
     LightingDetector.vvar LightingDetector.exFrame.r < 1/1000000) ∧
    (LightingDetector.detectByRgbCorrelation LightingDetector.exFrame).1
      = Mode.color := by
  have hn : ((LightingDetector.bigN : ℚ)) ≠ 0 := by
    norm_num [LightingDetector.bigN]
  have hb : LightingDetector.vvar LightingDetector.exFrame.b
      = (1 - 1 / (LightingDetector.bigN : ℚ)) / (LightingDetector.bigN : ℚ) :=
    LightingDetector.vvar_spike _ hn
  have hg : LightingDetector.vvar LightingDetector.exFrame.g
      = (1 - 1 / (LightingDetector.bigN : ℚ)) / (LightingDetector.bigN : ℚ) :=
    LightingDetector.vvar_spike _ hn
  have hr : LightingDetector.vvar LightingDetector.exFrame.r
      = (1 - 1 / (LightingDetector.bigN : ℚ)) / (LightingDetector.bigN : ℚ) :=
    LightingDetector.vvar_spike _ hn
  have hvlt : (1 - 1 / (LightingDetector.bigN : ℚ)) / (LightingDetector.bigN : ℚ)
      < 1/1000000 := by
    norm_num [LightingDetector.bigN]
  have hvge : ¬ (1 - 1 / (LightingDetector.bigN : ℚ)) / (LightingDetector.bigN : ℚ)
      < (1/1000000) ^ 2 := by
    norm_num [LightingDetector.bigN]
  have hguard : ¬ (LightingDetector.vvar LightingDetector.exFrame.b < (1/1000000) ^ 2 ∨
      LightingDetector.vvar LightingDetector.exFrame.g < (1/1000000) ^ 2 ∨
      LightingDetector.vvar LightingDetector.exFrame.r < (1/1000000) ^ 2) := by
    push_neg
    rw [hb, hg, hr]
    exact ⟨not_lt.mp hvge, not_lt.mp hvge, not_lt.mp hvge⟩
  have h01 : (⟨0, by norm_num [LightingDetector.bigN]⟩ : Fin LightingDetector.bigN)
      ≠ ⟨1, by norm_num [LightingDetector.bigN]⟩ :=
    Fin.ne_of_val_ne (by norm_num)
  have h02 : (⟨0, by norm_num [LightingDetector.bigN]⟩ : Fin LightingDetector.bigN)
      ≠ ⟨2, by norm_num [LightingDetector.bigN]⟩ :=
    Fin.ne_of_val_ne (by norm_num)
  have h12 : (⟨1, by norm_num [LightingDetector.bigN]⟩ : Fin LightingDetector.bigN)
      ≠ ⟨2, by norm_num [LightingDetector.bigN]⟩ :=
    Fin.ne_of_val_ne (by norm_num)
  have hc1 : LightingDetector.vcorr LightingDetector.exFrame.b
      LightingDetector.exFrame.g ≤ 0 := LightingDetector.vcorr_spike_nonpos h01 hn
  have hc2 : LightingDetector.vcorr LightingDetector.exFrame.b
      LightingDetector.exFrame.r ≤ 0 := LightingDetector.vcorr_spike_nonpos h02 hn
  have hc3 : LightingDetector.vcorr LightingDetector.exFrame.g
      LightingDetector.exFrame.r ≤ 0 := LightingDetector.vcorr_spike_nonpos h12 hn
  have havg : ¬ ((9:ℝ)/10 <
      (LightingDetector.vcorr LightingDetector.exFrame.b LightingDetector.exFrame.g +
       LightingDetector.vcorr LightingDetector.exFrame.b LightingDetector.exFrame.r +
       LightingDetector.vcorr LightingDetector.exFrame.g LightingDetector.exFrame.r) / 3) := by
    intro hcon
    have hsum : (LightingDetector.vcorr LightingDetector.exFrame.b LightingDetector.exFrame.g +
       LightingDetector.vcorr LightingDetector.exFrame.b LightingDetector.exFrame.r +
       LightingDetector.vcorr LightingDetector.exFrame.g LightingDetector.exFrame.r) / 3 ≤ 0 := by
      apply div_nonpos_iff.mpr
      right
      constructor
      · linarith
      · norm_num
    linarith
  refine ⟨⟨hb ▸ hvlt, hg ▸ hvlt, hr ▸ hvlt⟩, ?_⟩
  unfold LightingDetector.detectByRgbCorrelation
  rw [if_neg hguard]
  dsimp only
  rw [if_neg havg]

/-- C7 (amended): for every frame whose three color channels each have
standard deviation below 1e-6 - that is, variance below 1e-12 - the
channel-correlation estimator returns mode ir with confidence exactly 0.9
(hence at least 0.9); the source's near-zero guard is on np.std, not on
the variance. -/
theorem rgb_correlation_low_std_ir {n : ℕ} (fr : LightingDetector.RgbFrame n)
    (hb : LightingDetector.vvar fr.b < (1/1000000) ^ 2)
    (hg : LightingDetector.vvar fr.g < (1/1000000) ^ 2)
    (hr : LightingDetector.vvar fr.r < (1/1000000) ^ 2) :
    LightingDetector.detectByRgbCorrelation fr = (Mode.ir, 9/10) := by
  unfold LightingDetector.detectByRgbCorrelation
  rw [if_pos (Or.inl hb)]

/-- Witness for the amended C7 theorem: a uniform 4-pixel frame has
variance 0 on every channel and is classified ir at confidence 0.9. -/
theorem rgb_correlation_low_std_ir_witness :
    LightingDetector.vvar LightingDetector.flatFrame.b < (1/1000000) ^ 2 ∧
    LightingDetector.vvar LightingDetector.flatFrame.g < (1/1000000) ^ 2 ∧
    LightingDetector.vvar LightingDetector.flatFrame.r < (1/1000000) ^ 2 ∧
    LightingDetector.detectByRgbCorrelation LightingDetector.flatFrame
      = (Mode.ir, 9/10) := by
  have hv : LightingDetector.vvar (LightingDetector.flatFrame.b)
      < (1/1000000) ^ 2 := by
    have : LightingDetector.vvar (LightingDetector.flatFrame.b) = 0 := by
      simp [LightingDetector.vvar, LightingDetector.vmean, LightingDetector.flatFrame]
    rw [this]
    norm_num
  exact ⟨hv, hv, hv, rgb_correlation_low_std_ir LightingDetector.flatFrame hv hv hv⟩

namespace AutoCapture

/-- Python datetime value (naive, no timezone), the timestamp type of
capture requests.  datetime itself guarantees year <= 9999, month <= 12,
and so on; theorems that need these bounds take them as hypotheses. -/
structure PyDateTime where
  year : ℕ
  month : ℕ
  day : ℕ
  hour : ℕ
  minute : ℕ
  second : ℕ
  microsecond : ℕ
deriving DecidableEq, Repr

/-- Decimal digit character. -/
def digitChar (d : ℕ) : Char := Char.ofNat (48 + d)

/-- Fixed-width zero-padded decimal rendering, most significant digit
first: the behavior of Python's %0wd formatting for values below 10^w. -/
def padDigits : ℕ → ℕ → List Char
  | 0, _ => []
  | w + 1, m => digitChar (m / 10 ^ w) :: padDigits w (m % 10 ^ w)

/-- Embedding of datetime.isoformat(): YYYY-MM-DDTHH:MM:SS, with a
.ffffff microsecond suffix exactly when the microsecond field is
nonzero. -/
def isoformat (t : PyDateTime) : List Char :=
  padDigits 4 t.year ++ ('-' ::
    (padDigits 2 t.month ++ ('-' ::
      (padDigits 2 t.day ++ ('T' ::
        (padDigits 2 t.hour ++ (':' ::
          (padDigits 2 t.minute ++ (':' ::
            (padDigits 2 t.second ++
              (if t.microsecond = 0 then []
               else '.' :: padDigits 6 t.microsecond)))))))))))

/-- Parse exactly w decimal digits from the front of the list,
accumulating into acc. -/
def parseFixed : ℕ → ℕ → List Char → Option (ℕ × List Char)
  | 0, acc, rest => some (acc, rest)
  | _ + 1, _, [] => none
  | w + 1, acc, c :: rest =>
      if c.isDigit then parseFixed w (10 * acc + (c.toNat - 48)) rest else none

/-- Consume one expected separator character. -/
def expectChar (c : Char) : List Char → Option (List Char)
  | [] => none
  | x :: rest => if x = c then some rest else none

/-- Embedding of datetime.fromisoformat on the format that isoformat
emits: the fixed-width date and time fields separated by the literal
separators, with an optional 6-digit fractional-second suffix. -/
def fromisoformat (l : List Char) : Option PyDateTime := do
  let (y, r1) ← parseFixed 4 0 l
  let r2 ← expectChar '-' r1
  let (mo, r3) ← parseFixed 2 0 r2
  let r4 ← expectChar '-' r3
  let (d, r5) ← parseFixed 2 0 r4
  let r6 ← expectChar 'T' r5
  let (h, r7) ← parseFixed 2 0 r6
  let r8 ← expectChar ':' r7
  let (mi, r9) ← parseFixed 2 0 r8
  let r10 ← expectChar ':' r9
  let (sec, r11) ← parseFixed 2 0 r10
  match r11 with
  | [] => some ⟨y, mo, d, h, mi, sec, 0⟩
  | '.' :: r12 =>
      match parseFixed 6 0 r12 with
      | some (us, []) => some ⟨y, mo, d, h, mi, sec, us⟩
      | _ => none
  | _ => none

/-- Digit characters are digits and decode to their value. -/
theorem digitChar_facts : ∀ d : ℕ, d < 10 →
    (digitChar d).isDigit = true ∧ (digitChar d).toNat - 48 = d := by
  decide

/-- Parsing inverts fixed-width rendering for in-range values. -/
theorem parseFixed_padDigits :
    ∀ (w m acc : ℕ) (rest : List Char), m < 10 ^ w →
      parseFixed w acc (padDigits w m ++ rest) = some (acc * 10 ^ w + m, rest) := by
  intro w
  induction w with
  | zero =>
      intro m acc rest hm
      have hm0 : m = 0 := Nat.lt_one_iff.mp hm
      subst hm0
      simp [padDigits, parseFixed]
  | succ w ih =>
      intro m acc rest hm
      have hd : m / 10 ^ w < 10 := by
        apply Nat.div_lt_of_lt_mul
        rw [← pow_succ]
        exact hm
      obtain ⟨hdig, hval⟩ := digitChar_facts _ hd
      have hrec := ih (m % 10 ^ w) (10 * acc + m / 10 ^ w) rest
        (Nat.mod_lt _ (Nat.pos_pow_of_pos w (by norm_num)))
      rw [padDigits]
      rw [List.cons_append]
      rw [parseFixed]
      rw [hdig]
      rw [if_pos rfl] 
      rw [hval, hrec]
      have hsplit : (10 * acc + m / 10 ^ w) * 10 ^ w + m % 10 ^ w
          = acc * 10 ^ (w + 1) + m := by
        have hmod := Nat.div_add_mod m (10 ^ w)
        calc (10 * acc + m / 10 ^ w) * 10 ^ w + m % 10 ^ w
            = acc * (10 ^ w * 10) + (10 ^ w * (m / 10 ^ w) + m % 10 ^ w) := by ring
          _ = acc * 10 ^ (w + 1) + m := by rw [hmod, pow_succ]
      rw [hsplit]

end AutoCapture

namespace AutoCapture

/-- Consuming the expected separator succeeds. -/
theorem expectChar_cons (c : Char) (l : List Char) : expectChar c (c :: l) = some l := by
  simp [expectChar]

set_option maxHeartbeats 1000000 in
/-- fromisoformat inverts isoformat on every in-range datetime. -/
theorem fromisoformat_isoformat (t : PyDateTime)
    (hy : t.year < 10000) (hmo : t.month < 100) (hd : t.day < 100)
    (hh : t.hour < 100) (hmi : t.minute < 100) (hs : t.second < 100)
    (hus : t.microsecond < 1000000) :
    fromisoformat (isoformat t) = some t := by
  obtain ⟨y, mo, d, h, mi, sec, us⟩ := t
  simp only at hy hmo hd hh hmi hs hus
  have hy' : y < 10 ^ 4 := by simpa using hy
  have hmo' : mo < 10 ^ 2 := by simpa using hmo
  have hd' : d < 10 ^ 2 := by simpa using hd
  have hh' : h < 10 ^ 2 := by simpa using hh
  have hmi' : mi < 10 ^ 2 := by simpa using hmi
  have hs' : sec < 10 ^ 2 := by simpa using hs
  have hus' : us < 10 ^ 6 := by simpa using hus
  rw [isoformat, fromisoformat]
  simp only
  rw [parseFixed_padDigits 4 y 0 _ hy']
  simp only [Option.bind_eq_bind, Option.some_bind, Nat.zero_mul, Nat.zero_add]
  rw [expectChar_cons]
  simp only [Option.some_bind]
  rw [parseFixed_padDigits 2 mo 0 _ hmo']
  simp only [Option.some_bind, Nat.zero_mul, Nat.zero_add]
  rw [expectChar_cons]
  simp only [Option.some_bind]
  rw [parseFixed_padDigits 2 d 0 _ hd']
  simp only [Option.some_bind, Nat.zero_mul, Nat.zero_add]
  rw [expectChar_cons]
  simp only [Option.some_bind]
  rw [parseFixed_padDigits 2 h 0 _ hh']
  simp only [Option.some_bind, Nat.zero_mul, Nat.zero_add]
  rw [expectChar_cons]
  simp only [Option.some_bind]
  rw [parseFixed_padDigits 2 mi 0 _ hmi']
  simp only [Option.some_bind, Nat.zero_mul, Nat.zero_add]
  rw [expectChar_cons]
  simp only [Option.some_bind]
  by_cases hus0 : us = 0
  · subst hus0
    simp only [if_pos rfl, List.append_nil]
    rw [parseFixed_padDigits 2 sec 0 _ hs']
    simp only [Option.some_bind, Nat.zero_mul, Nat.zero_add]
    simp
  · rw [if_neg hus0]
    rw [parseFixed_padDigits 2 sec 0 _ hs']
    simp only [Option.some_bind, Nat.zero_mul, Nat.zero_add]
    rw [show padDigits 6 us = padDigits 6 us ++ [] from (List.append_nil _).symm,
      parseFixed_padDigits 6 us 0 _ hus']
    simp only [Nat.zero_mul, Nat.zero_add]

end AutoCapture

namespace AutoCapture

/-- JSON-serializable metadata values appearing in the capture sidecar:
strings, numbers, booleans, null, and the frame.shape tuple. -/
inductive Jval where
  | jstr : String → Jval
  | jnum : ℚ → Jval
  | jbool : Bool → Jval
  | jnull : Jval
  | jshape : ℕ × ℕ × ℕ → Jval
deriving DecidableEq, Repr

/-- Insertion-ordered Python dict update d[k] = v: replace in place when
the key exists, append otherwise. -/
def dictSet (d : List (String × Jval)) (k : String) (v : Jval) :
    List (String × Jval) :=
  match d with
  | [] => [(k, v)]
  | (k', v') :: rest => if k' = k then (k, v) :: rest else (k', v') :: dictSet rest k v

/-- Python dict lookup (first matching key). -/
def dictGet (d : List (String × Jval)) (k : String) : Option Jval :=
  (d.find? (fun p => p.1 == k)).map (fun p => p.2)

/-- Python membership test k in d. -/
def hasKey (d : List (String × Jval)) (k : String) : Bool :=
  d.any (fun p => p.1 == k)

/-- Python double-splat merge of dict literals: the entries of m are laid
over base in order, so a key present in m overrides the base entry. -/
def dictMerge (base m : List (String × Jval)) : List (String × Jval) :=
  m.foldl (fun acc kv => dictSet acc kv.1 kv.2) base

/-- One acquired frame: its numpy shape together with the OpenCV
measurements _assess_image_quality extracts from its pixels (Laplacian
variance, mean gray level, gray standard deviation). -/
structure Frame where
  height : ℕ
  width : ℕ
  channels : ℕ
  laplacianVar : ℚ
  meanBrightness : ℚ
  stdGray : ℚ
deriving DecidableEq, Repr

/-- Embedding of AutoCaptureSystem._assess_image_quality
(auto_capture_system.py lines 419-448): 0.5 x normalized Laplacian
variance (threshold 100) + 0.3 x brightness closeness to 125 + 0.2 x
normalized contrast (threshold 0.3 * 255), clamped to [0, 1]. -/
def assessImageQuality (f : Frame) : ℚ :=
  let brightnessScore := 1 - |f.meanBrightness - 125| / (255/2)
  let contrastScore := min (f.stdGray / (3/10 * 255)) 1
  let blurScoreNorm := min (f.laplacianVar / 100) 1
  let quality := blurScoreNorm * (5/10) + brightnessScore * (3/10) + contrastScore * (2/10)
  max 0 (min 1 quality)

/-- The methods the class LightingModeDetector actually defines
(lighting_detector.py lines 19-465). -/
def lightingDetectorMethods : List String :=
  ["detect_mode", "_detect_by_rgb_correlation", "_detect_by_time",
   "_detect_by_hue_diversity", "_detect_by_edge_characteristics",
   "_integrate_decisions", "_stabilize_with_history",
   "_evaluate_frame_quality", "_update_stats", "get_detection_stats",
   "reset_stats"]

/-- Python attribute lookup on a LightingModeDetector instance: an
AttributeError is raised for any name outside the method table. -/
def detectorHasMethod (name : String) : Bool :=
  lightingDetectorMethods.contains name

/-- Embedding of the CaptureRequest dict built by trigger_capture
(auto_capture_system.py lines 309-313). -/
structure CaptureRequest where
  triggerType : String
  timestamp : PyDateTime
  metadata : List (String × Jval)
deriving DecidableEq, Repr

/-- Embedding of the CaptureResult dataclass (lines 33-43). -/
structure CaptureResult where
  timestamp : PyDateTime
  filename : String
  filePath : String
  triggerType : String
  qualityScore : ℚ
  metadata : List (String × Jval)
  success : Bool
  errorMessage : Option String
deriving DecidableEq, Repr

/-- Embedding of the CaptureStats dataclass (lines 45-55). -/
structure CaptureStats where
  totalCaptures : ℕ
  successfulCaptures : ℕ
  failedCaptures : ℕ
  motionTriggers : ℕ
  scheduledTriggers : ℕ
  manualTriggers : ℕ
  averageQuality : ℚ
  lastCaptureTime : Option PyDateTime
deriving DecidableEq, Repr

/-- Embedding of queue.Queue: maxsize 0 means unbounded; put refuses (queue.Full
after the bounded wait) exactly when 0 < maxsize and the queue is full. -/
structure PyQueue (α : Type) where
  maxsize : ℕ
  items : List α
deriving DecidableEq, Repr

/-- Non-blocking effect of queue.put(x, timeout=1.0): the returned flag is
false when queue.Full was raised (only possible on a bounded full queue). -/
def queuePut {α : Type} (q : PyQueue α) (x : α) : PyQueue α × Bool :=
  if 0 < q.maxsize ∧ q.maxsize ≤ q.items.length then (q, false)
  else ({ q with items := q.items ++ [x] }, true)

/-- Files on persistent storage: the image written by cv2.imwrite and the
JSON sidecar written by json.dump. -/
inductive FileContent where
  | imageFile : Frame → FileContent
  | jsonFile : List (String × Jval) → FileContent
deriving DecidableEq, Repr

/-- Write (or overwrite) one file. -/
def setFile (files : List (String × FileContent)) (p : String) (c : FileContent) :
    List (String × FileContent) :=
  match files with
  | [] => [(p, c)]
  | (p', c') :: rest => if p' = p then (p, c) :: rest else (p', c') :: setFile rest p c

/-- Read one file. -/
def getFile (files : List (String × FileContent)) (p : String) : Option FileContent :=
  (files.find? (fun f => f.1 == p)).map (fun f => f.2)

/-- Mutable state of one AutoCaptureSystem instance: the trigger queue, the
capture history and stats, the written files, the stream/detector handles,
the configured quality floor, the invocations of the registered
on_capture_callback, and the count of queue-full warnings logged. -/
structure SystemState where
  captureQueue : PyQueue CaptureRequest
  captureHistory : List CaptureResult
  stats : CaptureStats
  files : List (String × FileContent)
  streamUp : Bool
  lightingDetectorPresent : Bool
  minQuality : ℚ
  callbackLog : List CaptureResult
  warnings : ℕ
deriving DecidableEq, Repr

/-- State right after AutoCaptureSystem.__init__ and a successful start():
queue.Queue() with maxsize 0 (line 75), empty history, zeroed stats,
default min_confidence_ratio 0.8 (line 344), lighting detector present. -/
def initialSystemState : SystemState :=
  { captureQueue := ⟨0, []⟩
    captureHistory := []
    stats := ⟨0, 0, 0, 0, 0, 0, 0, none⟩
    files := []
    streamUp := true
    lightingDetectorPresent := true
    minQuality := 8/10
    callbackLog := []
    warnings := 0 }

/-- Embedding of AutoCaptureSystem.trigger_capture (lines 307-319): build
the request dict and put it on the queue; a queue.Full is only logged as a
warning and the request is dropped. -/
def triggerCapture (s : SystemState) (triggerType : String)
    (metadata : List (String × Jval)) (now : PyDateTime) : SystemState :=
  let req : CaptureRequest := ⟨triggerType, now, metadata⟩
  let res := queuePut s.captureQueue req
  if res.2 then { s with captureQueue := res.1 }
  else { s with warnings := s.warnings + 1 }

/-- Embedding of AutoCaptureSystem._update_stats (lines 455-478). -/
def updateCaptureStats (st : CaptureStats) (success : Bool) (triggerType : String)
    (qualityScore : ℚ) (now : PyDateTime) : CaptureStats :=
  let st1 := { st with totalCaptures := st.totalCaptures + 1 }
  let st2 :=
    if success then
      let newCount := st1.successfulCaptures + 1
      let avg :=
        if newCount = 1 then qualityScore
        else (1 - 1/10) * st1.averageQuality + (1/10) * qualityScore
      { st1 with
        successfulCaptures := newCount
        lastCaptureTime := some now
        averageQuality := avg }
    else { st1 with failedCaptures := st1.failedCaptures + 1 }
  if triggerType = "motion" then { st2 with motionTriggers := st2.motionTriggers + 1 }
  else if triggerType = "scheduled" then
    { st2 with scheduledTriggers := st2.scheduledTriggers + 1 }
  else if triggerType = "manual" then
    { st2 with manualTriggers := st2.manualTriggers + 1 }
  else st2

/-- Filename stem of _generate_filename (lines 450-453):
hamster_TRIGGER_YYYYMMDD_HHMMSS_mmm, where mmm is the microsecond field
rendered to six digits with the last three sliced off. -/
def generateStem (t : PyDateTime) (triggerType : String) : String :=
  "hamster_" ++ triggerType ++ "_" ++
    String.mk (padDigits 4 t.year ++ padDigits 2 t.month ++ padDigits 2 t.day) ++
    "_" ++ String.mk (padDigits 2 t.hour ++ padDigits 2 t.minute ++ padDigits 2 t.second) ++
    "_" ++ String.mk (padDigits 3 (t.microsecond / 1000))

/-- The capture_metadata dict literal of _process_capture_request (lines
355-362) before the caller metadata is splatted over it: trigger type, the
ISO-8601 request timestamp, the quality score, frame.shape, and the
lighting_mode default None. -/
def baseSidecarMetadata (triggerType : String) (timestamp : PyDateTime)
    (qualityScore : ℚ) (frame : Frame) : List (String × Jval) :=
  [("trigger_type", .jstr triggerType),
   ("timestamp", .jstr (String.mk (isoformat timestamp))),
   ("quality_score", .jnum qualityScore),
   ("frame_size", .jshape (frame.height, frame.width, frame.channels)),
   ("lighting_mode", .jnull)]

/-- Embedding of AutoCaptureSystem._process_capture_request (lines
321-417).  frameResult abstracts self.stream.get_frame (None on failure);
lightingMethodResult is the value a detect_lighting_mode method would
return if the detector class defined one - the attribute lookup fails, so
it is never consulted; now is the wall-clock time used by _update_stats.
On any exception (missing stream, failed acquisition) a failure
CaptureResult carrying the request metadata is appended; a quality score
below the configured minimum only updates the stats and returns; otherwise
the image and the JSON sidecar are written, a success CaptureResult is
appended and the capture callback is invoked. -/
def processCaptureRequest (s : SystemState) (req : CaptureRequest)
    (frameResult : Option Frame) (lightingMethodResult : Frame → String × ℚ)
    (now : PyDateTime) : SystemState :=
  let triggerType := req.triggerType
  let timestamp := req.timestamp
  let metadata := req.metadata
  let fail : String → SystemState := fun msg =>
    { s with
      stats := updateCaptureStats s.stats false triggerType 0 now
      captureHistory := s.captureHistory ++
        [⟨timestamp, "", "", triggerType, 0, metadata, false, some msg⟩] }
  if s.streamUp = false then fail "RTSP stream unavailable"
  else
    match frameResult with
    | none => fail "frame acquisition failed"
    | some frame =>
      let qualityScore := assessImageQuality frame
      if qualityScore < s.minQuality then
        { s with stats := updateCaptureStats s.stats false triggerType 0 now }
      else
        let stem := generateStem timestamp triggerType
        let filename := stem ++ ".jpg"
        let filePath := "data/raw_frames/" ++ (stem ++ ".jpg")
        let metadataPath := "data/raw_frames/" ++ (stem ++ ".json")
        let captureMetadata :=
          dictMerge (baseSidecarMetadata triggerType timestamp qualityScore frame) metadata
        let captureMetadata2 :=
          if s.lightingDetectorPresent then
            if detectorHasMethod "detect_lighting_mode" then
              let r := lightingMethodResult frame
              dictSet (dictSet captureMetadata "lighting_mode" (.jstr r.1))
                "lighting_confidence" (.jnum r.2)
            else captureMetadata
          else captureMetadata
        let files2 := setFile s.files filePath (.imageFile frame)
        let files3 := setFile files2 metadataPath (.jsonFile captureMetadata2)
        let result : CaptureResult :=
          ⟨timestamp, filename, filePath, triggerType, qualityScore,
            captureMetadata2, true, none⟩
        { s with
          files := files3
          captureHistory := s.captureHistory ++ [result]
          stats := updateCaptureStats s.stats true triggerType qualityScore now
          callbackLog := s.callbackLog ++ [result] }

/-- One iteration of the capture worker (lines 184-195): a get with
timeout on an empty queue only continues the loop; otherwise the oldest
request is dequeued and processed. -/
def captureWorkerStep (s : SystemState) (frameResult : Option Frame)
    (lightingMethodResult : Frame → String × ℚ) (now : PyDateTime) : SystemState :=
  match s.captureQueue.items with
  | [] => s
  | req :: rest =>
      processCaptureRequest
        { s with captureQueue := { s.captureQueue with items := rest } }
        req frameResult lightingMethodResult now

end AutoCapture

namespace AutoCapture

/-- Lookup after writing a different key is unchanged. -/
theorem dictGet_dictSet_ne (d : List (String × Jval)) {k' k : String}
    (hne : k' ≠ k) (v : Jval) : dictGet (dictSet d k' v) k = dictGet d k := by
  induction d with
  | nil =>
      simp only [dictSet, dictGet, List.find?]
      have h1 : (k' == k) = false := by simp [hne]
      rw [h1]
  | cons p rest ih =>
      by_cases hp : p.1 = k'
      · rw [dictSet, if_pos hp]
        simp only [dictGet, List.find?]
        have h1 : (k' == k) = false := by simp [hne]
        have h2 : (p.1 == k) = false := by simp [hp, hne]
        rw [h1, h2]
      · rw [dictSet, if_neg hp]
        simp only [dictGet, List.find?] at ih ⊢
        cases hpk : (p.1 == k) with
        | true => simp
        | false => simpa using ih

/-- Merging a dict without key k preserves the lookup of k. -/
theorem dictGet_dictMerge_notin (m : List (String × Jval)) :
    ∀ (base : List (String × Jval)) (k : String), hasKey m k = false →
      dictGet (dictMerge base m) k = dictGet base k := by
  induction m with
  | nil => intro base k _; rfl
  | cons kv rest ih =>
      intro base k hk
      rw [hasKey, List.any_cons] at hk
      have h1 : (kv.1 == k) = false := by
        cases hbe : (kv.1 == k) <;> simp [hbe] at hk ⊢
      have h2 : hasKey rest k = false := by
        cases hr : rest.any (fun p => p.1 == k) <;> simp [hr, hasKey] at hk ⊢
      have hne : kv.1 ≠ k := by simpa using h1
      rw [dictMerge, List.foldl_cons]
      have := ih (dictSet base kv.1 kv.2) k h2
      rw [dictMerge] at this
      rw [this, dictGet_dictSet_ne _ hne]

/-- Files at a path just written are present with the written content. -/
theorem getFile_setFile_eq (files : List (String × FileContent)) (p : String)
    (c : FileContent) : getFile (setFile files p c) p = some c := by
  induction files with
  | nil => simp [setFile, getFile, List.find?]
  | cons f rest ih =>
      by_cases hp : f.1 = p
      · rw [setFile, if_pos hp]
        simp [getFile, List.find?]
      · rw [setFile, if_neg hp]
        simp only [getFile, List.find?] at ih ⊢
        have : (f.1 == p) = false := by simp [hp]
        rw [this]
        exact ih

/-- Files at a different path are untouched by a write. -/
theorem getFile_setFile_ne (files : List (String × FileContent)) {p' p : String}
    (hne : p' ≠ p) (c : FileContent) : getFile (setFile files p' c) p = getFile files p := by
  induction files with
  | nil =>
      simp only [setFile, getFile, List.find?]
      have h1 : (p' == p) = false := by simp [hne]
      rw [h1]
  | cons f rest ih =>
      by_cases hp : f.1 = p'
      · rw [setFile, if_pos hp]
        simp only [getFile, List.find?]
        have h1 : (p' == p) = false := by simp [hne]
        have h2 : (f.1 == p) = false := by simp [hp, hne]
        rw [h1, h2]
      · rw [setFile, if_neg hp]
        simp only [getFile, List.find?] at ih ⊢
        cases hpk : (f.1 == p) with
        | true => simp
        | false => simpa using ih

/-- Appending different suffixes to one string gives different strings. -/
theorem string_append_ne_of_ne (a : String) {b c : String} (hbc : b ≠ c) :
    a ++ b ≠ a ++ c := by
  intro h
  apply hbc
  have hdata : a.data ++ b.data = a.data ++ c.data := by
    have := congrArg String.data h
    simpa [String.data_append] using this
  have hbc2 := List.append_cancel_left hdata
  cases b
  cases c
  exact congrArg String.mk hbc2

end AutoCapture

namespace AutoCapture

/-- On the system's unbounded queue, trigger_capture always appends the
new request at the tail and changes nothing else. -/
theorem triggerCapture_append (s : SystemState) (h0 : s.captureQueue.maxsize = 0)
    (trig : String) (md : List (String × Jval)) (now : PyDateTime) :
    triggerCapture s trig md now
      = { s with captureQueue :=
          { s.captureQueue with items := s.captureQueue.items ++ [⟨trig, now, md⟩] } } := by
  have hput : queuePut s.captureQueue ⟨trig, now, md⟩
      = ({ s.captureQueue with items := s.captureQueue.items ++ [⟨trig, now, md⟩] }, true) := by
    rw [queuePut, if_neg]
    rw [h0]
    simp
  rw [triggerCapture]
  dsimp only
  rw [hput]
  rfl

/-- n manual triggers in a row from the initial state, with none dequeued. -/
def triggerN : ℕ → SystemState
  | 0 => initialSystemState
  | n + 1 => triggerCapture (triggerN n) "manual" [] ⟨2026, 1, 1, 0, 0, 0, 0⟩

/-- The system's queue keeps maxsize 0 and grows by one per trigger. -/
theorem triggerN_length : ∀ n : ℕ,
    (triggerN n).captureQueue.maxsize = 0 ∧
    (triggerN n).captureQueue.items.length = n := by
  intro n
  induction n with
  | zero => exact ⟨rfl, rfl⟩
  | succ n ih =>
      obtain ⟨hmax, hlen⟩ := ih
      rw [triggerN, triggerCapture_append _ hmax]
      exact ⟨hmax, by simp [hlen]⟩

end AutoCapture

/-- C5 counterexample: the trigger queue is not bounded - repeated
trigger_capture calls grow it past any bound N, because queue.Queue() is
constructed with maxsize 0 (unbounded) and put therefore never raises
queue.Full; the drop-with-warning branch is unreachable. -/
theorem capture_queue_unbounded :
    ¬ ∃ N : ℕ, ∀ n : ℕ,
      (AutoCapture.triggerN n).captureQueue.items.length ≤ N := by
  rintro ⟨N, hN⟩
  have h := hN (N + 1)
  rw [(AutoCapture.triggerN_length (N + 1)).2] at h
  omega

/-- C5 (amended): the trigger queue is unbounded (maxsize 0); enqueue via
trigger_capture never blocks or drops: it appends the new request at the
tail, leaves the warning count unchanged and keeps every previously queued
request intact in order, and the single worker dequeues strictly from the
head (FIFO). -/
theorem trigger_queue_policy (s : AutoCapture.SystemState)
    (h0 : s.captureQueue.maxsize = 0) (trig : String)
    (md : List (String × AutoCapture.Jval)) (now : AutoCapture.PyDateTime)
    (req : AutoCapture.CaptureRequest) (rest : List AutoCapture.CaptureRequest)
    (hq : s.captureQueue.items = req :: rest)
    (fr : Option AutoCapture.Frame) (lr : AutoCapture.Frame → String × ℚ)
    (nw : AutoCapture.PyDateTime) :
    AutoCapture.initialSystemState.captureQueue.maxsize = 0 ∧
    (AutoCapture.triggerCapture s trig md now).captureQueue.items
      = s.captureQueue.items ++ [⟨trig, now, md⟩] ∧
    (AutoCapture.triggerCapture s trig md now).warnings = s.warnings ∧
    AutoCapture.captureWorkerStep s fr lr nw
      = AutoCapture.processCaptureRequest
          { s with captureQueue := { s.captureQueue with items := rest } }
          req fr lr nw := by
  refine ⟨rfl, ?_, ?_, ?_⟩
  · rw [AutoCapture.triggerCapture_append s h0]
  · rw [AutoCapture.triggerCapture_append s h0]
  · rw [AutoCapture.captureWorkerStep]
    split
    · rename_i heq
      rw [hq] at heq
      cases heq
    · rename_i req' rest' heq
      rw [hq] at heq
      cases heq
      rfl

/-- Witness for the amended C5 theorem on a concrete one-element queue. -/
theorem trigger_queue_policy_witness :
    ({ AutoCapture.initialSystemState with
        captureQueue := ⟨0, [⟨"manual", ⟨2026, 1, 1, 0, 0, 0, 0⟩, []⟩]⟩ }
      : AutoCapture.SystemState).captureQueue.maxsize = 0 ∧
    ({ AutoCapture.initialSystemState with
        captureQueue := ⟨0, [⟨"manual", ⟨2026, 1, 1, 0, 0, 0, 0⟩, []⟩]⟩ }
      : AutoCapture.SystemState).captureQueue.items
      = [⟨"manual", ⟨2026, 1, 1, 0, 0, 0, 0⟩, []⟩] ∧
    (AutoCapture.initialSystemState.captureQueue.maxsize = 0 ∧
     (AutoCapture.triggerCapture
        { AutoCapture.initialSystemState with
          captureQueue := ⟨0, [⟨"manual", ⟨2026, 1, 1, 0, 0, 0, 0⟩, []⟩]⟩ }
        "motion" [] ⟨2026, 1, 1, 0, 0, 1, 0⟩).captureQueue.items
       = [⟨"manual", ⟨2026, 1, 1, 0, 0, 0, 0⟩, []⟩]
          ++ [⟨"motion", ⟨2026, 1, 1, 0, 0, 1, 0⟩, []⟩] ∧
     (AutoCapture.triggerCapture
        { AutoCapture.initialSystemState with
          captureQueue := ⟨0, [⟨"manual", ⟨2026, 1, 1, 0, 0, 0, 0⟩, []⟩]⟩ }
        "motion" [] ⟨2026, 1, 1, 0, 0, 1, 0⟩).warnings
       = ({ AutoCapture.initialSystemState with
            captureQueue := ⟨0, [⟨"manual", ⟨2026, 1, 1, 0, 0, 0, 0⟩, []⟩]⟩ }
          : AutoCapture.SystemState).warnings ∧
     AutoCapture.captureWorkerStep
        { AutoCapture.initialSystemState with
          captureQueue := ⟨0, [⟨"manual", ⟨2026, 1, 1, 0, 0, 0, 0⟩, []⟩]⟩ }
        none (fun _ => ("", 0)) ⟨2026, 1, 1, 0, 0, 2, 0⟩
       = AutoCapture.processCaptureRequest
          { ({ AutoCapture.initialSystemState with
               captureQueue := ⟨0, [⟨"manual", ⟨2026, 1, 1, 0, 0, 0, 0⟩, []⟩]⟩ }
             : AutoCapture.SystemState) with
            captureQueue := ⟨0, []⟩ }
          ⟨"manual", ⟨2026, 1, 1, 0, 0, 0, 0⟩, []⟩ none (fun _ => ("", 0))
          ⟨2026, 1, 1, 0, 0, 2, 0⟩) :=
  ⟨rfl, rfl,
    trigger_queue_policy _ rfl "motion" [] ⟨2026, 1, 1, 0, 0, 1, 0⟩
      ⟨"manual", ⟨2026, 1, 1, 0, 0, 0, 0⟩, []⟩ [] rfl none (fun _ => ("", 0))
      ⟨2026, 1, 1, 0, 0, 2, 0⟩⟩

namespace AutoCapture

/-- Lookup after writing a key finds the written value. -/
theorem dictGet_dictSet_eq (d : List (String × Jval)) (k : String) (v : Jval) :
    dictGet (dictSet d k v) k = some v := by
  induction d with
  | nil => simp [dictSet, dictGet, List.find?]
  | cons p rest ih =>
      by_cases hp : p.1 = k
      · rw [dictSet, if_pos hp]
        simp [dictGet, List.find?]
      · rw [dictSet, if_neg hp]
        simp only [dictGet, List.find?] at ih ⊢
        have : (p.1 == k) = false := by simp [hp]
        rw [this]
        exact ih

/-- The detector class defines no method named detect_lighting_mode, so the
orchestrator's attribute access raises AttributeError. -/
theorem detectorHasMethod_missing : detectorHasMethod "detect_lighting_mode" = false := by
  decide

/-- Field k of the JSON sidecar stored at path p, when that file exists. -/
def sidecarField (s : SystemState) (p k : String) : Option Jval :=
  match getFile s.files p with
  | some (.jsonFile d) => dictGet d k
  | _ => none

/-- Explicit form of the success path of _process_capture_request: with
the stream up and the quality at or above the floor, the image and sidecar
are written, the success result is appended to the history, the stats are
updated and the callback fires. -/
theorem processCaptureRequest_success (s : SystemState) (req : CaptureRequest)
    (frame : Frame) (lr : Frame → String × ℚ) (now : PyDateTime)
    (hstream : s.streamUp = true)
    (hq : ¬ assessImageQuality frame < s.minQuality) :
    processCaptureRequest s req (some frame) lr now
      = { s with
          files := setFile
            (setFile s.files
              ("data/raw_frames/" ++ (generateStem req.timestamp req.triggerType ++ ".jpg"))
              (.imageFile frame))
            ("data/raw_frames/" ++ (generateStem req.timestamp req.triggerType ++ ".json"))
            (.jsonFile (dictMerge
              (baseSidecarMetadata req.triggerType req.timestamp
                (assessImageQuality frame) frame) req.metadata))
          captureHistory := s.captureHistory ++
            [⟨req.timestamp, generateStem req.timestamp req.triggerType ++ ".jpg",
              "data/raw_frames/" ++ (generateStem req.timestamp req.triggerType ++ ".jpg"),
              req.triggerType, assessImageQuality frame,
              dictMerge (baseSidecarMetadata req.triggerType req.timestamp
                (assessImageQuality frame) frame) req.metadata, true, none⟩]
          stats := updateCaptureStats s.stats true req.triggerType
            (assessImageQuality frame) now
          callbackLog := s.callbackLog ++
            [⟨req.timestamp, generateStem req.timestamp req.triggerType ++ ".jpg",
              "data/raw_frames/" ++ (generateStem req.timestamp req.triggerType ++ ".jpg"),
              req.triggerType, assessImageQuality frame,
              dictMerge (baseSidecarMetadata req.triggerType req.timestamp
                (assessImageQuality frame) frame) req.metadata, true, none⟩] } := by
  rw [processCaptureRequest]
  dsimp only
  rw [hstream]
  rw [if_neg (by simp)]
  rw [if_neg hq]
  rw [detectorHasMethod_missing]
  rw [if_neg (Bool.false_ne_true)]
  rw [ite_self]

/-- Explicit form of the skip path: a quality score below the floor only
updates the stats. -/
theorem processCaptureRequest_skip (s : SystemState) (req : CaptureRequest)
    (frame : Frame) (lr : Frame → String × ℚ) (now : PyDateTime)
    (hstream : s.streamUp = true)
    (hq : assessImageQuality frame < s.minQuality) :
    processCaptureRequest s req (some frame) lr now
      = { s with stats := updateCaptureStats s.stats false req.triggerType 0 now } := by
  rw [processCaptureRequest]
  dsimp only
  rw [hstream]
  rw [if_neg (by simp)]
  rw [if_pos hq]

/-- Explicit form of the acquisition-failure path: a failure result with
the request metadata is appended and the stats are updated. -/
theorem processCaptureRequest_noframe (s : SystemState) (req : CaptureRequest)
    (lr : Frame → String × ℚ) (now : PyDateTime)
    (hstream : s.streamUp = true) :
    processCaptureRequest s req none lr now
      = { s with
          stats := updateCaptureStats s.stats false req.triggerType 0 now
          captureHistory := s.captureHistory ++
            [⟨req.timestamp, "", "", req.triggerType, 0, req.metadata, false,
              some "frame acquisition failed"⟩] } := by
  rw [processCaptureRequest]
  dsimp only
  rw [hstream]
  rw [if_neg (by simp)]

end AutoCapture

namespace AutoCapture

/-- Concrete request timestamp used by the orchestrator witnesses. -/
def sampleTime : PyDateTime := ⟨2026, 10, 12, 8, 30, 0, 123456⟩

/-- A sharp, optimally exposed frame: quality 1. -/
def goodFrame : Frame := ⟨480, 640, 3, 100, 125, 80⟩

/-- A flat, featureless frame: quality 0.3, below the 0.8 floor. -/
def badFrame : Frame := ⟨480, 640, 3, 0, 125, 0⟩

/-- Stand-in for the never-consulted detect_lighting_mode result. -/
def lrDummy : Frame → String × ℚ := fun _ => ("", 0)

/-- Manual request with empty caller metadata. -/
def plainReq : CaptureRequest := ⟨"manual", sampleTime, []⟩

/-- Manual request whose caller metadata overrides the timestamp field. -/
def overrideReq : CaptureRequest := ⟨"manual", sampleTime, [("timestamp", .jstr "bogus")]⟩

/-- Manual request whose caller metadata overrides the lighting_mode field. -/
def lightingOverrideReq : CaptureRequest :=
  ⟨"manual", sampleTime, [("lighting_mode", .jstr "color")]⟩

/-- The good frame scores exactly 1. -/
theorem assess_goodFrame : assessImageQuality goodFrame = 1 := by
  rw [assessImageQuality, goodFrame]
  norm_num

/-- The flat frame scores exactly 0.3. -/
theorem assess_badFrame : assessImageQuality badFrame = 3/10 := by
  rw [assessImageQuality, badFrame]
  norm_num

/-- The base sidecar stores the ISO request timestamp. -/
theorem base_timestamp (trig : String) (ts : PyDateTime) (q : ℚ) (f : Frame) :
    dictGet (baseSidecarMetadata trig ts q f) "timestamp"
      = some (.jstr (String.mk (isoformat ts))) := by
  simp [baseSidecarMetadata, dictGet, List.find?]

/-- The base sidecar stores lighting_mode = null. -/
theorem base_lighting_mode (trig : String) (ts : PyDateTime) (q : ℚ) (f : Frame) :
    dictGet (baseSidecarMetadata trig ts q f) "lighting_mode" = some .jnull := by
  simp [baseSidecarMetadata, dictGet, List.find?]

/-- The base sidecar has no lighting_confidence entry. -/
theorem base_lighting_confidence (trig : String) (ts : PyDateTime) (q : ℚ) (f : Frame) :
    dictGet (baseSidecarMetadata trig ts q f) "lighting_confidence" = none := by
  simp [baseSidecarMetadata, dictGet, List.find?]

/-- Stats update of one failed (or skipped) manual capture on fresh stats. -/
theorem updateStats_manual_fail (now : PyDateTime) :
    updateCaptureStats initialSystemState.stats false "manual" 0 now
      = ⟨1, 0, 1, 0, 0, 1, 0, none⟩ := by
  rw [updateCaptureStats]
  dsimp only
  rw [if_neg Bool.false_ne_true]
  rw [if_neg (by decide : ¬("manual" = "motion"))]
  rw [if_neg (by decide : ¬("manual" = "scheduled"))]
  rw [if_pos rfl]
  rfl

/-- The sidecar path differs from the image path of one capture. -/
theorem sidecar_path_ne_image_path (ts : PyDateTime) (trig : String) :
    ("data/raw_frames/" ++ (generateStem ts trig ++ ".json") : String)
      ≠ "data/raw_frames/" ++ (generateStem ts trig ++ ".jpg") :=
  string_append_ne_of_ne _ (string_append_ne_of_ne _ (by decide))

end AutoCapture

/-- C4 counterexample: a manual request whose frame scores 0.3 (below the
0.8 floor) is skipped - the stats count it (as a failure), but no file is
written, nothing is appended to the capture history and the capture
callback never fires, so the skip is invisible to the capture-history and
callback interfaces. -/
theorem skip_not_observable :
    AutoCapture.assessImageQuality AutoCapture.badFrame
      < AutoCapture.initialSystemState.minQuality ∧
    (AutoCapture.processCaptureRequest AutoCapture.initialSystemState
        AutoCapture.plainReq (some AutoCapture.badFrame) AutoCapture.lrDummy
        AutoCapture.sampleTime).captureHistory = [] ∧
    (AutoCapture.processCaptureRequest AutoCapture.initialSystemState
        AutoCapture.plainReq (some AutoCapture.badFrame) AutoCapture.lrDummy
        AutoCapture.sampleTime).callbackLog = [] ∧
    (AutoCapture.processCaptureRequest AutoCapture.initialSystemState
        AutoCapture.plainReq (some AutoCapture.badFrame) AutoCapture.lrDummy
        AutoCapture.sampleTime).files = [] ∧
    (AutoCapture.processCaptureRequest AutoCapture.initialSystemState
        AutoCapture.plainReq (some AutoCapture.badFrame) AutoCapture.lrDummy
        AutoCapture.sampleTime).stats
      = ⟨1, 0, 1, 0, 0, 1, 0, none⟩ := by
  have hq : AutoCapture.assessImageQuality AutoCapture.badFrame
      < AutoCapture.initialSystemState.minQuality := by
    rw [AutoCapture.assess_badFrame]
    norm_num [AutoCapture.initialSystemState]
  refine ⟨hq, ?_⟩
  rw [AutoCapture.processCaptureRequest_skip _ _ _ _ _ rfl hq]
  exact ⟨rfl, rfl, rfl, AutoCapture.updateStats_manual_fail _⟩

/-- C4 (amended): a dequeued request whose quality score is below the
configured minimum is skipped: no image or sidecar artifact is written and
the statistics are updated (the skip is counted as a failed capture), but
nothing is appended to the capture history and the capture callback does
not fire - the skip outcome is NOT observable through the capture-history
or callback interfaces.  A frame-acquisition failure, by contrast, appends
a failure CaptureResult to the history, yet it too fires no callback; only
successes reach the capture callback. -/
theorem skip_updates_stats_only (s : AutoCapture.SystemState)
    (req : AutoCapture.CaptureRequest) (frame : AutoCapture.Frame)
    (lr : AutoCapture.Frame → String × ℚ) (now : AutoCapture.PyDateTime)
    (hstream : s.streamUp = true)
    (hq : AutoCapture.assessImageQuality frame < s.minQuality) :
    (AutoCapture.processCaptureRequest s req (some frame) lr now).captureHistory
      = s.captureHistory ∧
    (AutoCapture.processCaptureRequest s req (some frame) lr now).callbackLog
      = s.callbackLog ∧
    (AutoCapture.processCaptureRequest s req (some frame) lr now).files = s.files ∧
    (AutoCapture.processCaptureRequest s req (some frame) lr now).stats
      = AutoCapture.updateCaptureStats s.stats false req.triggerType 0 now ∧
    (AutoCapture.processCaptureRequest s req none lr now).captureHistory
      = s.captureHistory ++
        [⟨req.timestamp, "", "", req.triggerType, 0, req.metadata, false,
          some "frame acquisition failed"⟩] ∧
    (AutoCapture.processCaptureRequest s req none lr now).callbackLog
      = s.callbackLog := by
  rw [AutoCapture.processCaptureRequest_skip _ _ _ _ _ hstream hq,
    AutoCapture.processCaptureRequest_noframe _ _ _ _ hstream]
  exact ⟨rfl, rfl, rfl, rfl, rfl, rfl⟩

/-- Witness for the amended C4 theorem at the concrete low-quality frame. -/
theorem skip_updates_stats_only_witness :
    AutoCapture.initialSystemState.streamUp = true ∧
    AutoCapture.assessImageQuality AutoCapture.badFrame
      < AutoCapture.initialSystemState.minQuality ∧
    ((AutoCapture.processCaptureRequest AutoCapture.initialSystemState
        AutoCapture.plainReq (some AutoCapture.badFrame) AutoCapture.lrDummy
        AutoCapture.sampleTime).captureHistory
      = AutoCapture.initialSystemState.captureHistory ∧
     (AutoCapture.processCaptureRequest AutoCapture.initialSystemState
        AutoCapture.plainReq (some AutoCapture.badFrame) AutoCapture.lrDummy
        AutoCapture.sampleTime).callbackLog
      = AutoCapture.initialSystemState.callbackLog ∧
     (AutoCapture.processCaptureRequest AutoCapture.initialSystemState
        AutoCapture.plainReq (some AutoCapture.badFrame) AutoCapture.lrDummy
        AutoCapture.sampleTime).files = AutoCapture.initialSystemState.files ∧
     (AutoCapture.processCaptureRequest AutoCapture.initialSystemState
        AutoCapture.plainReq (some AutoCapture.badFrame) AutoCapture.lrDummy
        AutoCapture.sampleTime).stats
      = AutoCapture.updateCaptureStats AutoCapture.initialSystemState.stats false
          AutoCapture.plainReq.triggerType 0 AutoCapture.sampleTime ∧
     (AutoCapture.processCaptureRequest AutoCapture.initialSystemState
        AutoCapture.plainReq none AutoCapture.lrDummy
        AutoCapture.sampleTime).captureHistory
      = AutoCapture.initialSystemState.captureHistory ++
        [⟨AutoCapture.plainReq.timestamp, "", "", AutoCapture.plainReq.triggerType, 0,
          AutoCapture.plainReq.metadata, false, some "frame acquisition failed"⟩] ∧
     (AutoCapture.processCaptureRequest AutoCapture.initialSystemState
        AutoCapture.plainReq none AutoCapture.lrDummy
        AutoCapture.sampleTime).callbackLog
      = AutoCapture.initialSystemState.callbackLog) :=
  ⟨rfl,
   by rw [AutoCapture.assess_badFrame]; norm_num [AutoCapture.initialSystemState],
   skip_updates_stats_only AutoCapture.initialSystemState AutoCapture.plainReq
     AutoCapture.badFrame AutoCapture.lrDummy AutoCapture.sampleTime rfl
     (by rw [AutoCapture.assess_badFrame]; norm_num [AutoCapture.initialSystemState])⟩

/-- C1 (amended): for every CaptureResult appended with success = true,
provided the caller metadata does not itself contain a timestamp key, the
image file and the JSON metadata sidecar of that capture exist on storage
and the sidecar's timestamp field round-trips through ISO-8601 parsing to
the original request timestamp. -/
theorem success_capture_persists_artifacts (s : AutoCapture.SystemState)
    (req : AutoCapture.CaptureRequest) (frame : AutoCapture.Frame)
    (lr : AutoCapture.Frame → String × ℚ) (now : AutoCapture.PyDateTime)
    (hstream : s.streamUp = true)
    (hq : ¬ AutoCapture.assessImageQuality frame < s.minQuality)
    (hts : AutoCapture.hasKey req.metadata "timestamp" = false)
    (hy : req.timestamp.year < 10000) (hmo : req.timestamp.month < 100)
    (hd : req.timestamp.day < 100) (hh : req.timestamp.hour < 100)
    (hmi : req.timestamp.minute < 100) (hsec : req.timestamp.second < 100)
    (hus : req.timestamp.microsecond < 1000000) :
    ∃ res : AutoCapture.CaptureResult,
      (AutoCapture.processCaptureRequest s req (some frame) lr now).captureHistory
        = s.captureHistory ++ [res] ∧
      res.success = true ∧
      AutoCapture.getFile
          (AutoCapture.processCaptureRequest s req (some frame) lr now).files
          res.filePath
        = some (.imageFile frame) ∧
      AutoCapture.sidecarField
          (AutoCapture.processCaptureRequest s req (some frame) lr now)
          ("data/raw_frames/" ++
            (AutoCapture.generateStem req.timestamp req.triggerType ++ ".json"))
          "timestamp"
        = some (.jstr (String.mk (AutoCapture.isoformat req.timestamp))) ∧
      AutoCapture.fromisoformat (AutoCapture.isoformat req.timestamp)
        = some req.timestamp := by
  rw [AutoCapture.processCaptureRequest_success s req frame lr now hstream hq]
  refine ⟨_, rfl, rfl, ?_, ?_,
    AutoCapture.fromisoformat_isoformat _ hy hmo hd hh hmi hsec hus⟩
  · show AutoCapture.getFile _ _ = _
    rw [AutoCapture.getFile_setFile_ne _
      (AutoCapture.sidecar_path_ne_image_path req.timestamp req.triggerType) _,
      AutoCapture.getFile_setFile_eq]
  · show AutoCapture.sidecarField _ _ _ = _
    rw [AutoCapture.sidecarField]
    dsimp only
    rw [AutoCapture.getFile_setFile_eq]
    dsimp only
    rw [AutoCapture.dictGet_dictMerge_notin _ _ _ hts,
      AutoCapture.base_timestamp]

/-- Witness for the amended C1 theorem: a manual request at the sample
timestamp with a quality-1 frame on the fresh system. -/
theorem success_capture_persists_artifacts_witness :
    AutoCapture.initialSystemState.streamUp = true ∧
    ¬ AutoCapture.assessImageQuality AutoCapture.goodFrame
        < AutoCapture.initialSystemState.minQuality ∧
    AutoCapture.hasKey AutoCapture.plainReq.metadata "timestamp" = false ∧
    (∃ res : AutoCapture.CaptureResult,
      (AutoCapture.processCaptureRequest AutoCapture.initialSystemState
          AutoCapture.plainReq (some AutoCapture.goodFrame) AutoCapture.lrDummy
          AutoCapture.sampleTime).captureHistory
        = AutoCapture.initialSystemState.captureHistory ++ [res] ∧
      res.success = true ∧
      AutoCapture.getFile
          (AutoCapture.processCaptureRequest AutoCapture.initialSystemState
            AutoCapture.plainReq (some AutoCapture.goodFrame) AutoCapture.lrDummy
            AutoCapture.sampleTime).files res.filePath
        = some (.imageFile AutoCapture.goodFrame) ∧
      AutoCapture.sidecarField
          (AutoCapture.processCaptureRequest AutoCapture.initialSystemState
            AutoCapture.plainReq (some AutoCapture.goodFrame) AutoCapture.lrDummy
            AutoCapture.sampleTime)
          ("data/raw_frames/" ++
            (AutoCapture.generateStem AutoCapture.plainReq.timestamp
              AutoCapture.plainReq.triggerType ++ ".json"))
          "timestamp"
        = some (.jstr (String.mk (AutoCapture.isoformat AutoCapture.plainReq.timestamp))) ∧
      AutoCapture.fromisoformat (AutoCapture.isoformat AutoCapture.plainReq.timestamp)
        = some AutoCapture.plainReq.timestamp) :=
  ⟨rfl,
   by rw [AutoCapture.assess_goodFrame]; norm_num [AutoCapture.initialSystemState],
   rfl,
   success_capture_persists_artifacts AutoCapture.initialSystemState
     AutoCapture.plainReq AutoCapture.goodFrame AutoCapture.lrDummy
     AutoCapture.sampleTime rfl
     (by rw [AutoCapture.assess_goodFrame]; norm_num [AutoCapture.initialSystemState])
     rfl
     (by norm_num [AutoCapture.sampleTime, AutoCapture.plainReq])
     (by norm_num [AutoCapture.sampleTime, AutoCapture.plainReq])
     (by norm_num [AutoCapture.sampleTime, AutoCapture.plainReq])
     (by norm_num [AutoCapture.sampleTime, AutoCapture.plainReq])
     (by norm_num [AutoCapture.sampleTime, AutoCapture.plainReq])
     (by norm_num [AutoCapture.sampleTime, AutoCapture.plainReq])
     (by norm_num [AutoCapture.sampleTime, AutoCapture.plainReq])⟩

/-- C1 counterexample: a successful manual capture whose caller metadata
contains a timestamp entry.  The double-splat in the sidecar construction
lets the caller entry override the ISO timestamp: the appended result has
success = true, but the sidecar's timestamp field is the caller's string,
which does not parse back to the request timestamp. -/
theorem sidecar_timestamp_override_counterexample :
    ((AutoCapture.processCaptureRequest AutoCapture.initialSystemState
        AutoCapture.overrideReq (some AutoCapture.goodFrame) AutoCapture.lrDummy
        AutoCapture.sampleTime).captureHistory.map (fun r => r.success) = [true]) ∧
    AutoCapture.sidecarField
        (AutoCapture.processCaptureRequest AutoCapture.initialSystemState
          AutoCapture.overrideReq (some AutoCapture.goodFrame) AutoCapture.lrDummy
          AutoCapture.sampleTime)
        ("data/raw_frames/" ++
          (AutoCapture.generateStem AutoCapture.sampleTime "manual" ++ ".json"))
        "timestamp"
      = some (.jstr "bogus") ∧
    AutoCapture.fromisoformat ("bogus".data) = none ∧
    ("bogus" : String) ≠ String.mk (AutoCapture.isoformat AutoCapture.sampleTime) := by
  have hq : ¬ AutoCapture.assessImageQuality AutoCapture.goodFrame
      < AutoCapture.initialSystemState.minQuality := by
    rw [AutoCapture.assess_goodFrame]
    norm_num [AutoCapture.initialSystemState]
  rw [AutoCapture.processCaptureRequest_success _ _ _ _ _ rfl hq]
  refine ⟨rfl, ?_, by decide, by decide⟩
  rw [AutoCapture.sidecarField]
  dsimp only [AutoCapture.overrideReq]
  rw [AutoCapture.getFile_setFile_eq]
  dsimp only [AutoCapture.dictMerge, List.foldl_cons, List.foldl_nil]
  rw [AutoCapture.dictGet_dictSet_eq]

/-- C10 (amended): provided the caller metadata supplies neither a
lighting_mode nor a lighting_confidence entry, every successful capture's
JSON sidecar has lighting_mode = null and no lighting_confidence field,
even when a LightingModeDetector instance is present: the orchestrator
accesses detect_lighting_mode, a name absent from the detector class's
method table, so the AttributeError is caught and only logged, leaving
the lighting annotation at its null default. -/
theorem lighting_annotation_stays_null (s : AutoCapture.SystemState)
    (req : AutoCapture.CaptureRequest) (frame : AutoCapture.Frame)
    (lr : AutoCapture.Frame → String × ℚ) (now : AutoCapture.PyDateTime)
    (hstream : s.streamUp = true)
    (hq : ¬ AutoCapture.assessImageQuality frame < s.minQuality)
    (hdet : s.lightingDetectorPresent = true)
    (hlm : AutoCapture.hasKey req.metadata "lighting_mode" = false)
    (hlc : AutoCapture.hasKey req.metadata "lighting_confidence" = false) :
    AutoCapture.detectorHasMethod "detect_lighting_mode" = false ∧
    AutoCapture.sidecarField
        (AutoCapture.processCaptureRequest s req (some frame) lr now)
        ("data/raw_frames/" ++
          (AutoCapture.generateStem req.timestamp req.triggerType ++ ".json"))
        "lighting_mode"
      = some .jnull ∧
    AutoCapture.sidecarField
        (AutoCapture.processCaptureRequest s req (some frame) lr now)
        ("data/raw_frames/" ++
          (AutoCapture.generateStem req.timestamp req.triggerType ++ ".json"))
        "lighting_confidence"
      = none := by
  rw [AutoCapture.processCaptureRequest_success s req frame lr now hstream hq]
  refine ⟨AutoCapture.detectorHasMethod_missing, ?_, ?_⟩
  · rw [AutoCapture.sidecarField]
    dsimp only
    rw [AutoCapture.getFile_setFile_eq]
    dsimp only
    rw [AutoCapture.dictGet_dictMerge_notin _ _ _ hlm,
      AutoCapture.base_lighting_mode]
  · rw [AutoCapture.sidecarField]
    dsimp only
    rw [AutoCapture.getFile_setFile_eq]
    dsimp only
    rw [AutoCapture.dictGet_dictMerge_notin _ _ _ hlc,
      AutoCapture.base_lighting_confidence]

/-- Witness for the amended C10 theorem on the fresh system with a present
lighting detector. -/
theorem lighting_annotation_stays_null_witness :
    AutoCapture.initialSystemState.streamUp = true ∧
    AutoCapture.initialSystemState.lightingDetectorPresent = true ∧
    AutoCapture.hasKey AutoCapture.plainReq.metadata "lighting_mode" = false ∧
    AutoCapture.hasKey AutoCapture.plainReq.metadata "lighting_confidence" = false ∧
    (AutoCapture.detectorHasMethod "detect_lighting_mode" = false ∧
     AutoCapture.sidecarField
        (AutoCapture.processCaptureRequest AutoCapture.initialSystemState
          AutoCapture.plainReq (some AutoCapture.goodFrame) AutoCapture.lrDummy
          AutoCapture.sampleTime)
        ("data/raw_frames/" ++
          (AutoCapture.generateStem AutoCapture.plainReq.timestamp
            AutoCapture.plainReq.triggerType ++ ".json"))
        "lighting_mode"
      = some .jnull ∧
     AutoCapture.sidecarField
        (AutoCapture.processCaptureRequest AutoCapture.initialSystemState
          AutoCapture.plainReq (some AutoCapture.goodFrame) AutoCapture.lrDummy
          AutoCapture.sampleTime)
        ("data/raw_frames/" ++
          (AutoCapture.generateStem AutoCapture.plainReq.timestamp
            AutoCapture.plainReq.triggerType ++ ".json"))
        "lighting_confidence"
      = none) :=
  ⟨rfl, rfl, rfl, rfl,
   lighting_annotation_stays_null AutoCapture.initialSystemState
     AutoCapture.plainReq AutoCapture.goodFrame AutoCapture.lrDummy
     AutoCapture.sampleTime rfl
     (by rw [AutoCapture.assess_goodFrame]; norm_num [AutoCapture.initialSystemState])
     rfl rfl rfl⟩

/-- C10 counterexample: a successful capture whose caller metadata carries
a lighting_mode entry - the double-splat overrides the null default, so
the sidecar's lighting_mode is the caller's string, not null, even though
the detector's lighting annotation path never ran. -/
theorem lighting_mode_override_counterexample :
    AutoCapture.initialSystemState.lightingDetectorPresent = true ∧
    ((AutoCapture.processCaptureRequest AutoCapture.initialSystemState
        AutoCapture.lightingOverrideReq (some AutoCapture.goodFrame)
        AutoCapture.lrDummy AutoCapture.sampleTime).captureHistory.map
          (fun r => r.success) = [true]) ∧
    AutoCapture.sidecarField
        (AutoCapture.processCaptureRequest AutoCapture.initialSystemState
          AutoCapture.lightingOverrideReq (some AutoCapture.goodFrame)
          AutoCapture.lrDummy AutoCapture.sampleTime)
        ("data/raw_frames/" ++
          (AutoCapture.generateStem AutoCapture.sampleTime "manual" ++ ".json"))
        "lighting_mode"
      = some (.jstr "color") ∧
    (AutoCapture.Jval.jstr "color" ≠ AutoCapture.Jval.jnull) := by
  have hq : ¬ AutoCapture.assessImageQuality AutoCapture.goodFrame
      < AutoCapture.initialSystemState.minQuality := by
    rw [AutoCapture.assess_goodFrame]
    norm_num [AutoCapture.initialSystemState]
  rw [AutoCapture.processCaptureRequest_success _ _ _ _ _ rfl hq]
  refine ⟨rfl, rfl, ?_, by decide⟩
  rw [AutoCapture.sidecarField]
  dsimp only [AutoCapture.lightingOverrideReq]
  rw [AutoCapture.getFile_setFile_eq]
  dsimp only [AutoCapture.dictMerge, List.foldl_cons, List.foldl_nil]
  rw [AutoCapture.dictGet_dictSet_eq]
